import Mathlib

/-!
Verification of the product-ordering backend (`src/backend/models.py`,
`src/backend/views.py`) against its natural-language specification.

The relational state is embedded shallowly: each Django model of
`models.py` becomes a structure whose fields are the model's columns
(foreign keys are stored by id, exactly as the `*_id` database columns),
and the database is a record of row lists.  Each HTTP handler of
`views.py` becomes a function from the database, the requesting user and
the request arguments to a new database and a response.  Python
exceptions that escape a handler (Django would turn them into an HTTP
500) are modelled by the `Resp.uncaught` response; the state returned
alongside reflects the writes committed before the exception, since the
handlers use no transactions.

Name resolution matters: several handlers in `views.py` refer to
attributes or query paths that do not exist on the models of
`models.py` (for instance `category_object.sellers` at views.py:76 while
the many-to-many field of `Category` is named `shops`, models.py:81).
Such resolution is modelled explicitly: the declared attribute/field
names of each model are listed as data taken from `models.py`, and the
handler looks its literal name up in that list, raising the
corresponding exception on failure, exactly as Python/Django would.
-/

namespace Backend

/-- Row of `Contact` (models.py lines 40-56): user FK, address, phone. -/
structure Contact where
  id : Nat
  user_id : Nat
  address : String
  phone : String
deriving DecidableEq

/-- Row of `Seller` (models.py lines 59-76): one-to-one user FK (nullable),
name, order-acceptance state (default True), catalog url (nullable). -/
structure Seller where
  id : Nat
  user_id : Option Nat
  name : String
  state : Bool
  url : Option String
deriving DecidableEq

/-- Row of `Category` (models.py lines 79-90).  The many-to-many field to
`Seller` is named `shops`; it is stored here as the list of seller ids. -/
structure Category where
  id : Nat
  name : String
  shops : List Nat
deriving DecidableEq

/-- Row of `Product` (models.py lines 93-108): name and category FK. -/
structure Product where
  id : Nat
  name : String
  category_id : Nat
deriving DecidableEq

/-- Row of `ProductInfo` (models.py lines 111-134): display name, product FK,
seller FK, quantity, price, recommended price, article. -/
structure ProductInfo where
  id : Nat
  name : String
  product_id : Nat
  seller_id : Nat
  quantity : Nat
  price : Nat
  price_rrc : Nat
  article : Nat
deriving DecidableEq

/-- Row of `Parameter` (models.py lines 137-145): a parameter name. -/
structure Parameter where
  id : Nat
  name : String
deriving DecidableEq

/-- Row of `ProductParameter` (models.py lines 148-167): product-info FK,
parameter FK, value. -/
structure ProductParameter where
  id : Nat
  product_info_id : Nat
  parameter_id : Nat
  value : String
deriving DecidableEq

/-- Row of `Order` (models.py lines 170-188).  Its fields are exactly
`user` (a foreign key declared to `Contact`, column `user_id`), the
creation timestamp `dt` and `state`; there is no `contact` field.  The
timestamp is never read by any handler under study and is modelled as a
plain number set to 0 on creation. -/
structure Order where
  id : Nat
  user_id : Nat
  dt : Nat
  state : String
deriving DecidableEq

/-- Row of `OrderItem` (models.py lines 191-217).  The FK to `ProductInfo`
is named `product` (column `product_id`) and the FK to `Seller` is named
`shop` (column `shop_id`); there is no field named `product_info`, and no
uniqueness constraint is declared. -/
structure OrderItem where
  id : Nat
  order_id : Nat
  product_id : Nat
  shop_id : Nat
  quantity : Nat
deriving DecidableEq

/-- The authenticated-request context: `request.user` as the handlers read
it (`id`, `is_authenticated`, `type`). -/
structure ReqUser where
  id : Nat
  isAuthenticated : Bool
  type : String
deriving DecidableEq

/-- The relational store: one list of rows per model. -/
structure Db where
  contacts : List Contact
  sellers : List Seller
  categories : List Category
  products : List Product
  productInfos : List ProductInfo
  parameters : List Parameter
  productParameters : List ProductParameter
  orders : List Order
  orderItems : List OrderItem
deriving DecidableEq

/-- Python exceptions that can escape a handler (becoming an HTTP 500). -/
inductive PyExc where
  | fieldError
  | attributeError
  | nameError
  | multipleObjectsReturned
  | integrityError
deriving DecidableEq

/-- Responses produced by the handlers, one constructor per distinct JSON
body shape in `views.py` (plus `uncaught` for an escaping exception). -/
inductive Resp where
  | authRequired
  | sellersOnly
  | statusTrue
  | argsError
  | urlInvalid
  | argsIncorrect
  | createdObjects (n : Nat)
  | updatedObjects (n : Nat)
  | deletedObjects (n : Nat)
  | orderList (l : List (Nat × Nat))
  | uncaught (e : PyExc)
deriving DecidableEq

/-- Primary-key allocation: one more than the largest id in use, so a
fresh id never collides with an existing row of the same table. -/
def freshId (ids : List Nat) : Nat := ids.foldr max 0 + 1

/-! ### Catalog import (`CatalogView.post`, views.py lines 44-107)

The remote catalog document (spec section 6): seller name, categories,
goods. -/

/-- One entry of the document's `categories` list. -/
structure CatEntry where
  id : Nat
  name : String
deriving DecidableEq

/-- One entry of the document's `goods` list. -/
structure Good where
  id : Nat
  category : Nat
  name : String
  model : String
  quantity : Nat
  price : Nat
  price_rrc : Nat
  parameters : List (String × String)
deriving DecidableEq

/-- The parsed catalog document. -/
structure Doc where
  seller : String
  categories : List CatEntry
  goods : List Good
deriving DecidableEq

/-- The rows of `sellers` matching `name=nm, user_id=uid` — the lookup of
`Seller.objects.get_or_create(name=..., user_id=...)` (views.py 68-70). -/
def sellerMatches (l : List Seller) (nm : String) (uid : Nat) : List Seller :=
  l.filter fun s => decide (s.name = nm ∧ s.user_id = some uid)

/-- `Seller.objects.get_or_create(name=nm, user_id=uid)`: get the unique
match, create on no match, raise `MultipleObjectsReturned` (here `none`)
on several. -/
def getOrCreateSeller (db : Db) (nm : String) (uid : Nat) : Option (Db × Seller) :=
  match sellerMatches db.sellers nm uid with
  | [] =>
    let s : Seller := ⟨freshId (db.sellers.map (·.id)), some uid, nm, true, none⟩
    some ({ db with sellers := db.sellers ++ [s] }, s)
  | [s] => some (db, s)
  | _ => none

/-- The rows of `categories` matching `id=i, name=nm` — the lookup of
`Category.objects.get_or_create(id=..., name=...)` (views.py 73-75). -/
def categoryMatches (l : List Category) (i : Nat) (nm : String) : List Category :=
  l.filter fun c => decide (c.id = i ∧ c.name = nm)

/-- Attributes available on a `Category` instance: pk, declared fields
(models.py 79-90) and the reverse accessor from `Product.category`.
There is no attribute named `sellers`. -/
def categoryAttrs : List String := ["id", "name", "shops", "products"]

/-- One iteration of the category loop (views.py 72-77): get-or-create
the category by id and name, then evaluate `category_object.sellers`,
which is not among `categoryAttrs` and so raises `AttributeError`.  The
guarded branch is what would run if the attribute existed (adding the
seller to the category's `shops` set), and is unreachable. -/
def catStep (db : Db) (sid : Nat) (c : CatEntry) : Db × Option PyExc :=
  match categoryMatches db.categories c.id c.name with
  | [] =>
    if db.categories.any fun k => decide (k.id = c.id) then
      (db, some .integrityError)
    else
      let db' := { db with categories := db.categories ++ [⟨c.id, c.name, []⟩] }
      if "sellers" ∈ categoryAttrs then
        ({ db' with categories := db'.categories.map fun k =>
            if k.id = c.id then { k with shops := k.shops ++ [sid] } else k }, none)
      else
        (db', some .attributeError)
  | [_] =>
    if "sellers" ∈ categoryAttrs then
      ({ db with categories := db.categories.map fun k =>
          if k.id = c.id then { k with shops := k.shops ++ [sid] } else k }, none)
    else
      (db, some .attributeError)
  | _ => (db, some .multipleObjectsReturned)

/-- The `for category in data["categories"]` loop (views.py 72-77); a
raised exception aborts the loop with the writes so far committed. -/
def categoriesLoop (db : Db) (sid : Nat) : List CatEntry → Db × Option PyExc
  | [] => (db, none)
  | c :: rest =>
    match catStep db sid c with
    | (db', some e) => (db', some e)
    | (db', none) => categoriesLoop db' sid rest

/-- `ProductInfo.objects.filter(seller_id=...).delete()` (views.py 79)
with Django's CASCADE collection: the seller's product infos go, and so
do the `ProductParameter` and `OrderItem` rows referencing them
(models.py 148-167, 191-217 declare `on_delete=CASCADE`). -/
def deleteSellerInfos (db : Db) (sid : Nat) : Db :=
  let dead := (db.productInfos.filter fun pi => decide (pi.seller_id = sid)).map (·.id)
  { db with
    productInfos := db.productInfos.filter fun pi => !decide (pi.seller_id = sid)
    productParameters := db.productParameters.filter fun pp => !decide (pp.product_info_id ∈ dead)
    orderItems := db.orderItems.filter fun oi => !decide (oi.product_id ∈ dead) }

/-- The rows of `products` matching `name=nm, category_id=cid` — the
lookup of `Product.objects.get_or_create` (views.py 82-84). -/
def prodMatches (l : List Product) (nm : String) (cid : Nat) : List Product :=
  l.filter fun p => decide (p.name = nm ∧ p.category_id = cid)

/-- `Product.objects.get_or_create(name=nm, category_id=cid)`, returning
the resolved product id (`none` on `MultipleObjectsReturned`). -/
def getOrCreateProduct (db : Db) (nm : String) (cid : Nat) : Option (Db × Nat) :=
  match prodMatches db.products nm cid with
  | [] =>
    let pid := freshId (db.products.map (·.id))
    some ({ db with products := db.products ++ [⟨pid, nm, cid⟩] }, pid)
  | [p] => some (db, p.id)
  | _ => none

/-- The rows of `parameters` matching `name=nm` — the lookup of
`Parameter.objects.get_or_create(name=...)` (views.py 96). -/
def parMatches (l : List Parameter) (nm : String) : List Parameter :=
  l.filter fun p => decide (p.name = nm)

/-- `Parameter.objects.get_or_create(name=nm)`, returning the resolved
parameter id (`none` on `MultipleObjectsReturned`). -/
def getOrCreateParameter (db : Db) (nm : String) : Option (Db × Nat) :=
  match parMatches db.parameters nm with
  | [] =>
    let qid := freshId (db.parameters.map (·.id))
    some ({ db with parameters := db.parameters ++ [⟨qid, nm⟩] }, qid)
  | [p] => some (db, p.id)
  | _ => none

/-- The `for name, value in item["parameters"].items()` loop (views.py
95-101): upsert the parameter by name and create a `ProductParameter`
row linking it to the freshly created product info `piId`. -/
def paramsLoop (db : Db) (piId : Nat) : List (String × String) → Db × Option PyExc
  | [] => (db, none)
  | (nm, v) :: rest =>
    match getOrCreateParameter db nm with
    | none => (db, some .multipleObjectsReturned)
    | some (db1, parId) =>
      let ppId := freshId (db1.productParameters.map (·.id))
      let db2 := { db1 with productParameters :=
        db1.productParameters ++ [⟨ppId, piId, parId, v⟩] }
      paramsLoop db2 piId rest

/-- The `for item in data["goods"]` loop (views.py 81-101): upsert the
product by (name, category), create a fresh `ProductInfo` under
(product, seller) with the document's quantity/price/price_rrc and
`article=item["id"]`, then run the parameter loop. -/
def goodsLoop (db : Db) (sid : Nat) : List Good → Db × Option PyExc
  | [] => (db, none)
  | g :: rest =>
    match getOrCreateProduct db g.name g.category with
    | none => (db, some .multipleObjectsReturned)
    | some (db1, pid) =>
      let piId := freshId (db1.productInfos.map (·.id))
      let db2 := { db1 with productInfos :=
        db1.productInfos ++ [⟨piId, g.model, pid, sid, g.quantity, g.price, g.price_rrc, g.id⟩] }
      match paramsLoop db2 piId g.parameters with
      | (db3, some e) => (db3, some e)
      | (db3, none) => goodsLoop db3 sid rest

/-- The import steps after the seller has been resolved (views.py
72-103): category loop, full delete of the seller's product infos,
goods loop. -/
def importRest (db : Db) (sel : Seller) (d : Doc) : Db × Resp :=
  match categoriesLoop db sel.id d.categories with
  | (db2, some e) => (db2, .uncaught e)
  | (db2, none) =>
    let db3 := deleteSellerInfos db2 sel.id
    match goodsLoop db3 sel.id d.goods with
    | (db4, some e) => (db4, .uncaught e)
    | (db4, none) => (db4, .statusTrue)

/-- The import body once the URL has been fetched and parsed (views.py
68-103): seller upsert, then the remaining steps. -/
def importCatalog (db : Db) (uid : Nat) (d : Doc) : Db × Resp :=
  match getOrCreateSeller db d.seller uid with
  | none => (db, .uncaught .multipleObjectsReturned)
  | some (db1, sel) => importRest db1 sel d

/-- `CatalogView.post` (views.py 44-107).  `url = none` models an absent
or empty (falsy) `url` argument; `validUrl` models `URLValidator`, and
`doc` the parsed YAML served at the url. -/
def catalogPost (db : Db) (u : ReqUser) (url : Option String)
    (validUrl : String → Bool) (doc : Doc) : Db × Resp :=
  if !u.isAuthenticated then (db, .authRequired)
  else if u.type ≠ "seller" then (db, .sellersOnly)
  else
    match url with
    | none => (db, .argsError)
    | some url' =>
      if validUrl url' then importCatalog db u.id doc
      else (db, .urlInvalid)

/-- The attached parameters of a product info: `(parameter_id, value)`
pairs of its `ProductParameter` rows. -/
def piParams (db : Db) (piId : Nat) : List (Nat × String) :=
  (db.productParameters.filter fun pp => decide (pp.product_info_id = piId)).map
    fun pp => (pp.parameter_id, pp.value)

/-- Content of one `ProductInfo` row: everything except the row id. -/
structure StockItem where
  product_id : Nat
  name : String
  quantity : Nat
  price : Nat
  price_rrc : Nat
  article : Nat
  params : List (Nat × String)
deriving DecidableEq

/-- The seller's stock, by content: for each of the seller's
`ProductInfo` rows its product, display name, quantity, price,
recommended price, article, and attached parameters (row ids omitted, so
two imports producing the same listings compare equal). -/
def sellerStock (db : Db) (sid : Nat) : List StockItem :=
  (db.productInfos.filter fun pi => decide (pi.seller_id = sid)).map
    fun pi => ⟨pi.product_id, pi.name, pi.quantity, pi.price, pi.price_rrc, pi.article,
      piParams db pi.id⟩

/-! ### Basket mutation (`BasketView.post/put/delete`, views.py 291-395) -/

/-- One entry of the JSON `items` list of the basket add call:
`{product_info id, quantity, ...}` together with the shop reference the
created `OrderItem` row needs.  `OrderItemSerializer` lives in
`serializers.py`, which is not part of the sources under study; it is
modelled from the spec (section 4.3): an entry carrying these fields is
valid and `save` creates an `OrderItem` bound to the given order.
`models.py` declares no uniqueness constraint on `OrderItem`, so no
`IntegrityError` arises from a duplicate product. -/
structure AddEntry where
  product_info : Nat
  shop : Nat
  quantity : Nat
deriving DecidableEq

/-- The `items` argument of the basket add call.  `absent` models a
missing or empty (falsy) string, `malformed` a string `ujson.loads`
rejects (or that does not parse as a list of objects), `entries` a
well-formed JSON list. -/
inductive AddArg where
  | absent
  | malformed
  | entries (l : List AddEntry)
deriving DecidableEq

/-- One entry of the JSON `items` list of the basket update call.  The
handler checks `type(order_item["id"]) == int` (views.py 383-386);
`none` models a JSON value of any other type. -/
structure PutEntry where
  idVal : Option Nat
  qtyVal : Option Nat
deriving DecidableEq

/-- The `items` argument of the basket update call (same conventions
as `AddArg`). -/
inductive PutArg where
  | absent
  | malformed
  | entries (l : List PutEntry)
deriving DecidableEq

/-- The rows of `orders` matching `user_id=uid, state="basket"` — the
lookup of `Order.objects.get_or_create(user_id=..., state="basket")`
used by all three basket mutations (views.py 305-307, 343-345,
377-379). -/
def basketMatches (l : List Order) (uid : Nat) : List Order :=
  l.filter fun o => decide (o.user_id = uid ∧ o.state = "basket")

/-- `Order.objects.get_or_create(user_id=uid, state="basket")`: get the
unique match; on no match insert a fresh basket order — the insert must
satisfy the `Order.user` foreign key into `Contact` (models.py 170-177),
which the store enforces, so when no `Contact` row with id `uid` exists
the insert raises `IntegrityError` and creates nothing; on several
matches raise `MultipleObjectsReturned`. -/
def basketGetOrCreate (db : Db) (uid : Nat) : Db × Except PyExc Order :=
  match basketMatches db.orders uid with
  | [] =>
    if db.contacts.any fun ct => decide (ct.id = uid) then
      let b : Order := ⟨freshId (db.orders.map (·.id)), uid, 0, "basket"⟩
      ({ db with orders := db.orders ++ [b] }, .ok b)
    else (db, .error .integrityError)
  | [b] => (db, .ok b)
  | _ => (db, .error .multipleObjectsReturned)

/-- `BasketView.post` (views.py 291-331).  On a malformed payload the
parse error is swallowed (the error response at line 303 is built but
not returned), the basket is still get-or-created, and the subsequent
`for order_item in items_dict` raises `NameError` since `items_dict`
was never bound.  With a parsed list, the success return at line 325
sits inside the `for` loop, so only the first entry is processed; an
empty list falls through to the final "arguments" response at 329. -/
def basketPost (db : Db) (u : ReqUser) (arg : AddArg) : Db × Resp :=
  if !u.isAuthenticated then (db, .authRequired)
  else
    match arg with
    | .absent => (db, .argsError)
    | .malformed =>
      match basketGetOrCreate db u.id with
      | (db1, .error e) => (db1, .uncaught e)
      | (db1, .ok _) => (db1, .uncaught .nameError)
    | .entries l =>
      match basketGetOrCreate db u.id with
      | (db1, .error e) => (db1, .uncaught e)
      | (db1, .ok b) =>
        match l with
        | [] => (db1, .argsError)
        | e :: _ =>
          let oiId := freshId (db1.orderItems.map (·.id))
          ({ db1 with orderItems :=
              db1.orderItems ++ [⟨oiId, b.id, e.product_info, e.shop, e.quantity⟩] },
            .createdObjects 1)

/-- One iteration of the update loop (views.py 382-389):
`OrderItem.objects.filter(order_id=basket.id, id=...).update(quantity=...)`,
returning the new state and the number of rows matched; entries whose
`id` or `quantity` is not an int are skipped. -/
def putOne (db : Db) (bid : Nat) (e : PutEntry) : Db × Nat :=
  match e.idVal, e.qtyVal with
  | some i, some q =>
    ({ db with orderItems := db.orderItems.map fun oi =>
        if oi.order_id = bid ∧ oi.id = i then { oi with quantity := q } else oi },
      (db.orderItems.filter fun oi => decide (oi.order_id = bid ∧ oi.id = i)).length)
  | _, _ => (db, 0)

/-- The `for order_item in items_dict` loop of the update call,
accumulating `objects_updated`. -/
def putLoop (db : Db) (bid : Nat) : List PutEntry → Db × Nat
  | [] => (db, 0)
  | e :: rest =>
    let (db1, n) := putOne db bid e
    let (db2, m) := putLoop db1 bid rest
    (db2, n + m)

/-- `BasketView.put` (views.py 363-395).  As in `basketPost`, a
malformed payload still get-or-creates the basket before the loop
raises `NameError`. -/
def basketPut (db : Db) (u : ReqUser) (arg : PutArg) : Db × Resp :=
  if !u.isAuthenticated then (db, .authRequired)
  else
    match arg with
    | .absent => (db, .argsError)
    | .malformed =>
      match basketGetOrCreate db u.id with
      | (db1, .error e) => (db1, .uncaught e)
      | (db1, .ok _) => (db1, .uncaught .nameError)
    | .entries l =>
      match basketGetOrCreate db u.id with
      | (db1, .error e) => (db1, .uncaught e)
      | (db1, .ok b) =>
        let (db2, n) := putLoop db1 b.id l
        (db2, .updatedObjects n)

/-- Splitting a character list at commas — `items_string.split(",")`. -/
def splitCommas : List Char → List (List Char)
  | [] => [[]]
  | c :: rest =>
    match splitCommas rest with
    | [] => [[c]]
    | t :: ts => if c = ',' then [] :: t :: ts else (c :: t) :: ts

/-- Python's `str.isdigit` on a token: nonempty and all digits. -/
def isDigitToken (t : List Char) : Bool := !t.isEmpty && t.all Char.isDigit

/-- Decimal value of a digit token, as `int(...)`/Django's coercion
would read it. -/
def tokenToNat (t : List Char) : Nat := t.foldl (fun n c => n * 10 + (c.toNat - 48)) 0

/-- The order-item ids named by the comma-separated `items` string, with
non-numeric tokens ignored (views.py 349-352). -/
def numericIds (s : String) : List Nat :=
  ((splitCommas s.toList).filter isDigitToken).map tokenToNat

/-- `BasketView.delete` (views.py 333-361): split the `items` string on
commas, get-or-create the caller's basket, build a disjunction of
`Q(order_id=basket.id, id=...)` over the digit tokens and delete the
matching `OrderItem` rows; with no digit token nothing is deleted and
the final "arguments" response is returned.  An empty `items` string is
falsy and skips the whole block. -/
def basketDelete (db : Db) (u : ReqUser) (itemsStr : String) : Db × Resp :=
  if !u.isAuthenticated then (db, .authRequired)
  else if itemsStr.isEmpty then (db, .argsError)
  else
    match basketGetOrCreate db u.id with
    | (db1, .error e) => (db1, .uncaught e)
    | (db1, .ok b) =>
      let ids := numericIds itemsStr
      if ids.isEmpty then (db1, .argsError)
      else
        let keep := db1.orderItems.filter fun oi => !decide (oi.order_id = b.id ∧ oi.id ∈ ids)
        ({ db1 with orderItems := keep },
          .deletedObjects (db1.orderItems.length - keep.length))

/-- The basket operations of `BasketView` (add, update quantities,
delete items), each by an arbitrary requesting user. -/
inductive BasketOp where
  | add (u : ReqUser) (a : AddArg)
  | update (u : ReqUser) (a : PutArg)
  | remove (u : ReqUser) (s : String)

/-- State reached by one basket operation. -/
def applyOp (db : Db) : BasketOp → Db
  | .add u a => (basketPost db u a).1
  | .update u a => (basketPut db u a).1
  | .remove u s => (basketDelete db u s).1

/-- State reached by a sequence of basket operations. -/
def applyOps (db : Db) (ops : List BasketOp) : Db := ops.foldl applyOp db

/-- Number of orders of user `uid` in "basket" state. -/
def basketCount (db : Db) (uid : Nat) : Nat := (basketMatches db.orders uid).length

/-! ### Order listing and placement (`BasketView.get`, `OrderView`,
`SellerOrdersView`, views.py 266-289, 439-471, 554-606)

Django resolves the double-underscore lookup paths used in `filter`,
`annotate` and `select_related` against the declared fields of the
models; an unresolvable name raises `FieldError`.  The field map below
is read off `models.py`: for every model, its concrete columns (with
the `_id` attname of each foreign key) and the reverse accessors created
by `related_name`. -/

/-- Declared query names per model: `none` marks a scalar column, `some
m` a relation traversing to model `m`. -/
def fieldsOf : String → List (String × Option String)
  | "Contact" =>
    [("id", none), ("user", some "User"), ("user_id", none),
     ("address", none), ("phone", none), ("orders", some "Order")]
  | "Seller" =>
    [("id", none), ("user", some "User"), ("user_id", none), ("name", none),
     ("state", none), ("url", none), ("product_infos", some "ProductInfo"),
     ("ordered_items", some "OrderItem"), ("categories", some "Category")]
  | "Category" =>
    [("id", none), ("name", none), ("shops", some "Seller"), ("products", some "Product")]
  | "Product" =>
    [("id", none), ("name", none), ("category", some "Category"), ("category_id", none),
     ("product_infos", some "ProductInfo")]
  | "ProductInfo" =>
    [("id", none), ("name", none), ("product", some "Product"), ("product_id", none),
     ("seller", some "Seller"), ("seller_id", none), ("quantity", none), ("price", none),
     ("price_rrc", none), ("article", none),
     ("product_parameters", some "ProductParameter"), ("ordered_items", some "OrderItem")]
  | "Parameter" =>
    [("id", none), ("name", none), ("product_parameters", some "ProductParameter")]
  | "ProductParameter" =>
    [("id", none), ("product_info", some "ProductInfo"), ("product_info_id", none),
     ("parameter", some "Parameter"), ("parameter_id", none), ("value", none)]
  | "Order" =>
    [("id", none), ("user", some "Contact"), ("user_id", none), ("dt", none),
     ("state", none), ("ordered_items", some "OrderItem")]
  | "OrderItem" =>
    [("id", none), ("order", some "Order"), ("order_id", none),
     ("product", some "ProductInfo"), ("product_id", none),
     ("shop", some "Seller"), ("shop_id", none), ("quantity", none)]
  | _ => []

/-- Resolution of a double-underscore lookup path starting at model `m`:
every step must name a declared relation, except that the last step may
be a scalar column. -/
def resolvePath (m : String) : List String → Bool
  | [] => true
  | f :: rest =>
    match (fieldsOf m).lookup f with
    | none => false
    | some none => rest.isEmpty
    | some (some m') => resolvePath m' rest

/-- The price of a product info row (0 if the id is dangling), used by
the intended `total_sum` aggregation. -/
def priceOf (db : Db) (piId : Nat) : Nat :=
  match db.productInfos.find? fun pi => decide (pi.id = piId) with
  | some pi => pi.price
  | none => 0

/-- The SQL the annotation `Sum(F("ordered_items__quantity") *
F("ordered_items__product_info__price"))` is meant to compute for one
order: the sum over the order's items of quantity times the item's
product-info price. -/
def orderTotal (db : Db) (oid : Nat) : Nat :=
  ((db.orderItems.filter fun oi => decide (oi.order_id = oid)).map
    fun oi => oi.quantity * priceOf db oi.product_id).sum

/-- `BasketView.get` (views.py 266-289): filter the caller's basket
orders, annotate each with `total_sum`.  The annotate expression names
the path `ordered_items__product_info__price`, which must resolve
against `Order`; `OrderItem` has no field `product_info` (its FK to
`ProductInfo` is named `product`), so `annotate` raises `FieldError`
and the guarded listing branch is unreachable. -/
def basketGet (db : Db) (u : ReqUser) : Resp :=
  if !u.isAuthenticated then .authRequired
  else if resolvePath "Order" ["ordered_items", "quantity"] &&
      resolvePath "Order" ["ordered_items", "product_info", "price"] then
    .orderList ((db.orders.filter fun o => decide (o.user_id = u.id ∧ o.state = "basket")).map
      fun o => (o.id, orderTotal db o.id))
  else .uncaught .fieldError

/-- `OrderView.get` (views.py 554-578): the caller's non-basket orders
with `total_sum`.  The same annotate paths must resolve, and so must
`select_related("contact")` — `Order` has no field `contact` either. -/
def orderGet (db : Db) (u : ReqUser) : Resp :=
  if !u.isAuthenticated then .authRequired
  else if resolvePath "Order" ["ordered_items", "quantity"] &&
      resolvePath "Order" ["ordered_items", "product_info", "price"] &&
      resolvePath "Order" ["contact"] then
    .orderList ((db.orders.filter fun o => decide (o.user_id = u.id ∧ o.state ≠ "basket")).map
      fun o => (o.id, orderTotal db o.id))
  else .uncaught .fieldError

/-- Whether some item of order `oid` is supplied by a seller owned by
user `uid` — the filter `ordered_items__product_info__seller__user_id`
is meant to select such orders. -/
def orderSuppliedBy (db : Db) (oid uid : Nat) : Bool :=
  db.orderItems.any fun oi =>
    decide (oi.order_id = oid) &&
    (db.productInfos.any fun pi =>
      decide (pi.id = oi.product_id) &&
      (db.sellers.any fun s => decide (s.id = pi.seller_id ∧ s.user_id = some uid)))

/-- `SellerOrdersView.get` (views.py 439-471): orders containing the
seller's listings, basket state excluded, with `total_sum`.  The filter
path `ordered_items__product_info__seller__user_id` fails to resolve at
`product_info`, so the `filter` call itself raises `FieldError`. -/
def sellerOrdersGet (db : Db) (u : ReqUser) : Resp :=
  if !u.isAuthenticated then .authRequired
  else if u.type ≠ "seller" then .sellersOnly
  else if resolvePath "Order" ["ordered_items", "product_info", "seller", "user_id"] &&
      resolvePath "Order" ["ordered_items", "quantity"] &&
      resolvePath "Order" ["ordered_items", "product_info", "price"] then
    .orderList ((db.orders.filter fun o =>
        orderSuppliedBy db o.id u.id && !decide (o.state = "basket")).map
      fun o => (o.id, orderTotal db o.id))
  else .uncaught .fieldError

/-- The field names `QuerySet.update` accepts on `Order` (models.py
170-188): update kwargs are resolved by `Options.get_field`, which
knows the declared field names only.  `contact_id` is not among them. -/
def orderUpdatableFields : List String := ["id", "user", "dt", "state"]

/-- `OrderView.post` (views.py 580-606): with `id` and `contact`
present and `id` a digit string, run
`Order.objects.filter(user_id=..., id=...).update(contact_id=..., state="new")`.
`Order` has no field `contact`, so resolving the update kwarg
`contact_id` raises before any row is written; the guarded branch holds
the write that would otherwise happen (note it does not restrict the
current state to "basket").  Only `IntegrityError` is caught (views.py
592), so the resolution error escapes as a server fault. -/
def orderPost (db : Db) (u : ReqUser) (idArg contactArg : Option String) : Db × Resp :=
  if !u.isAuthenticated then (db, .authRequired)
  else
    match idArg, contactArg with
    | some i, some _ =>
      if isDigitToken i.toList then
        if "contact_id" ∈ orderUpdatableFields ∧ "state" ∈ orderUpdatableFields then
          let oid := tokenToNat i.toList
          let matched := (db.orders.filter fun o => decide (o.user_id = u.id ∧ o.id = oid)).length
          let db' := { db with orders := db.orders.map fun o =>
            if o.user_id = u.id ∧ o.id = oid then { o with state := "new" } else o }
          if matched ≠ 0 then (db', .statusTrue) else (db', .argsError)
        else (db, .uncaught .fieldError)
      else (db, .argsError)
    | _, _ => (db, .argsError)

/-! ### Integrity predicates and concrete instances -/

/-- Referential integrity of `ProductParameter.product_info` (a foreign
key in models.py 148-155, enforced by the store): every product
parameter row points at an existing product info row. -/
def WfPP (db : Db) : Prop :=
  ∀ pp ∈ db.productParameters, ∃ pi ∈ db.productInfos, pi.id = pp.product_info_id

/-- Referential integrity of `OrderItem.order` (a foreign key in
models.py 192-198): every order item points at an existing order. -/
def WfOrderRefs (db : Db) : Prop :=
  ∀ oi ∈ db.orderItems, ∃ o ∈ db.orders, o.id = oi.order_id

/-- The empty store. -/
def emptyDb : Db := ⟨[], [], [], [], [], [], [], [], []⟩

/-- An authenticated seller-typed user. -/
def exSeller : ReqUser := ⟨3, true, "seller"⟩

/-- An authenticated buyer-typed user. -/
def exBuyer : ReqUser := ⟨1, true, "buyer"⟩

/-- The spec's example import document (spec section 8): seller "Acme",
one category, one good with one parameter. -/
def exDoc : Doc :=
  { seller := "Acme"
    categories := [⟨1, "Tools"⟩]
    goods := [{ id := 10, category := 1, name := "Hammer", model := "H1",
                quantity := 5, price := 1000, price_rrc := 1200,
                parameters := [("Weight", "1kg")] }] }

/-- An import document with two categories, to exercise the category
loop beyond its first iteration. -/
def exDoc2 : Doc :=
  { seller := "Acme"
    categories := [⟨1, "Tools"⟩, ⟨2, "Garden"⟩]
    goods := [] }

/-- A store with one buyer basket containing two priced items
(quantities 2 and 3, prices 100 and 50, the spec's worked example whose
total should be 350) and one placed order. -/
def exListingDb : Db :=
  { emptyDb with
    contacts := [⟨1, 1, "addr", "phone"⟩]
    sellers := [⟨1, some 3, "Acme", true, none⟩]
    categories := [⟨1, "Tools", [1]⟩]
    products := [⟨1, "Hammer", 1⟩, ⟨2, "Rake", 1⟩]
    productInfos := [⟨1, "H1", 1, 1, 10, 100, 120, 10⟩, ⟨2, "R1", 2, 1, 10, 50, 60, 11⟩]
    orders := [⟨1, 1, 0, "basket"⟩, ⟨2, 1, 0, "new"⟩]
    orderItems := [⟨1, 1, 1, 1, 2⟩, ⟨2, 1, 2, 1, 3⟩, ⟨3, 2, 1, 1, 1⟩] }

/-- A store with a basket order (id 1) owned by user 1 who also owns
contact 1 — the straightforward order-placement scenario. -/
def exPlaceDb : Db :=
  { emptyDb with
    contacts := [⟨1, 1, "addr", "phone"⟩]
    orders := [⟨1, 1, 0, "basket"⟩] }

/-- A store with a basket order (id 7) owned by user 1 and no contact
row at all, so any contact id the caller sends is invalid. -/
def exBadContactDb : Db :=
  { emptyDb with orders := [⟨7, 1, 0, "basket"⟩] }

/-- A store where user 1 already has a basket order. -/
def exBasketDb : Db := { emptyDb with orders := [⟨1, 1, 0, "basket"⟩] }

/-- Two users with one basket each; item 1 sits in user 1's basket,
item 2 in user 2's. -/
def exTwoBasketsDb : Db :=
  { emptyDb with
    orders := [⟨1, 1, 0, "basket"⟩, ⟨2, 2, 0, "basket"⟩]
    orderItems := [⟨1, 1, 5, 1, 2⟩, ⟨2, 2, 6, 1, 3⟩] }

/-- A store holding only a contact row with id 1, so user 1's basket
insert satisfies the `Order.user` foreign key into `Contact`. -/
def exContactsDb : Db := { emptyDb with contacts := [⟨1, 1, "addr", "phone"⟩] }

/-- The two-baskets store extended with a contact row of id 5, so the
basketless user 5 can have a basket inserted for them. -/
def exBasketlessUserDb : Db :=
  { exTwoBasketsDb with contacts := [⟨5, 5, "addr", "phone"⟩] }

/-- A store holding a prior Acme catalog: one listing with an attached
parameter, so the full-replace path of a re-import has real work to do. -/
def exImportDb : Db :=
  { emptyDb with
    sellers := [⟨1, some 3, "Acme", true, none⟩]
    categories := [⟨1, "Tools", [1]⟩]
    products := [⟨1, "Hammer", 1⟩]
    productInfos := [⟨1, "Old", 1, 1, 2, 500, 600, 9⟩]
    parameters := [⟨1, "Weight"⟩]
    productParameters := [⟨1, 1, 1, "2kg"⟩] }

/-- An import document with no categories (so the import completes) and
one good with one parameter. -/
def exImportDoc : Doc :=
  { seller := "Acme"
    categories := []
    goods := [{ id := 10, category := 1, name := "Hammer", model := "H1",
                quantity := 5, price := 1000, price_rrc := 1200,
                parameters := [("Weight", "1kg")] }] }

/-! ### Theorems -/

theorem le_foldr_max (l : List Nat) : ∀ x ∈ l, x ≤ l.foldr max 0 := by
  induction l with
  | nil => simp
  | cons a l ih =>
    intro x hx
    rcases List.mem_cons.mp hx with rfl | hx
    · exact le_max_left _ _
    · exact le_trans (ih x hx) (le_max_right _ _)

theorem freshId_not_mem (l : List Nat) : freshId l ∉ l := by
  intro h
  have hle := le_foldr_max l _ h
  unfold freshId at hle
  omega

theorem basketMatches_append (l l' : List Order) (uid : Nat) :
    basketMatches (l ++ l') uid = basketMatches l uid ++ basketMatches l' uid := by
  simp [basketMatches]

/-- The get-or-create used by the basket mutations preserves the
at-most-one-basket property of every user. -/
theorem basketCount_goc (db : Db) (uid uid' : Nat) (h : basketCount db uid ≤ 1) :
    basketCount (basketGetOrCreate db uid').1 uid ≤ 1 := by
  unfold basketGetOrCreate
  rcases hm : basketMatches db.orders uid' with _ | ⟨b, _ | ⟨b', rest⟩⟩
  · by_cases hc : (db.contacts.any fun ct => decide (ct.id = uid')) = true
    · rw [if_pos hc]
      by_cases huid : uid' = uid
      · subst huid
        simp only [basketCount, basketMatches_append] at *
        rw [hm]
        simp [basketMatches]
      · simp only [basketCount, basketMatches_append] at *
        have hsingle : basketMatches [⟨freshId (db.orders.map (·.id)), uid', 0, "basket"⟩] uid = [] := by
          simp [basketMatches, huid]
        rw [hsingle]
        simpa using h
    · rw [if_neg hc]
      exact h
  · exact h
  · exact h

theorem putOne_orders (db : Db) (bid : Nat) (e : PutEntry) :
    (putOne db bid e).1.orders = db.orders := by
  unfold putOne
  rcases e.idVal with _ | i <;> rcases e.qtyVal with _ | q <;> rfl

theorem putLoop_cons (db : Db) (bid : Nat) (e : PutEntry) (rest : List PutEntry) :
    putLoop db bid (e :: rest)
      = ((putLoop (putOne db bid e).1 bid rest).1,
         (putOne db bid e).2 + (putLoop (putOne db bid e).1 bid rest).2) := by
  rcases h : putOne db bid e with ⟨db1, n⟩
  rcases h2 : putLoop db1 bid rest with ⟨db2, m⟩
  simp [putLoop, h, h2]

theorem putLoop_orders (l : List PutEntry) (db : Db) (bid : Nat) :
    (putLoop db bid l).1.orders = db.orders := by
  induction l generalizing db with
  | nil => rfl
  | cons e rest ih =>
    rw [putLoop_cons]
    simp only
    rw [ih, putOne_orders]

/-- Every single basket operation preserves the at-most-one-basket
property of every user. -/
theorem basketCount_applyOp (db : Db) (op : BasketOp) (uid : Nat)
    (h : basketCount db uid ≤ 1) : basketCount (applyOp db op) uid ≤ 1 := by
  have hcnt : ∀ uid', basketCount (basketGetOrCreate db uid').1 uid ≤ 1 :=
    fun uid' => basketCount_goc db uid uid' h
  cases op with
  | add u a =>
    simp only [applyOp, basketPost]
    cases hA : u.isAuthenticated
    · simpa using h
    · simp only [Bool.not_true, if_false]
      cases a with
      | absent => exact h
      | malformed =>
        rcases hg : basketGetOrCreate db u.id with ⟨db1, ob⟩
        have hdb1 : basketCount db1 uid ≤ 1 := by
          have := hcnt u.id; rwa [hg] at this
        cases ob <;> simpa using hdb1
      | entries l =>
        rcases hg : basketGetOrCreate db u.id with ⟨db1, ob⟩
        have hdb1 : basketCount db1 uid ≤ 1 := by
          have := hcnt u.id; rwa [hg] at this
        cases ob with
        | error e => simpa using hdb1
        | ok b =>
          cases l with
          | nil => simpa using hdb1
          | cons e rest => simpa [basketCount, basketMatches] using hdb1
  | update u a =>
    simp only [applyOp, basketPut]
    cases hA : u.isAuthenticated
    · simpa using h
    · simp only [Bool.not_true, if_false]
      cases a with
      | absent => exact h
      | malformed =>
        rcases hg : basketGetOrCreate db u.id with ⟨db1, ob⟩
        have hdb1 : basketCount db1 uid ≤ 1 := by
          have := hcnt u.id; rwa [hg] at this
        cases ob <;> simpa using hdb1
      | entries l =>
        rcases hg : basketGetOrCreate db u.id with ⟨db1, ob⟩
        have hdb1 : basketCount db1 uid ≤ 1 := by
          have := hcnt u.id; rwa [hg] at this
        cases ob with
        | error e => simpa using hdb1
        | ok b =>
          have horders := putLoop_orders l db1 b.id
          simpa [basketCount, horders] using hdb1
  | remove u s =>
    simp only [applyOp, basketDelete]
    cases hA : u.isAuthenticated
    · simpa using h
    · simp only [Bool.not_true, if_false]
      by_cases hemp : s.isEmpty
      · simpa [hemp] using h
      · simp only [hemp, if_false]
        rcases hg : basketGetOrCreate db u.id with ⟨db1, ob⟩
        have hdb1 : basketCount db1 uid ≤ 1 := by
          have := hcnt u.id; rwa [hg] at this
        cases ob with
        | error e => simpa using hdb1
        | ok b =>
          by_cases hids : (numericIds s).isEmpty
          · simpa [hids] using hdb1
          · simpa [hids, basketCount, basketMatches] using hdb1

/-- C4.  The singleton-basket invariant: starting from a store where a
user has at most one order in "basket" state, any sequence of basket
operations (add, update quantities, delete items, by any users with any
arguments) leaves that user with at most one order in "basket" state —
all three handlers obtain the basket with the same
`get_or_create(user_id=..., state="basket")`, which never creates a
second one. -/
theorem basket_state_singleton (db : Db) (uid : Nat) (ops : List BasketOp)
    (h : basketCount db uid ≤ 1) : basketCount (applyOps db ops) uid ≤ 1 := by
  induction ops generalizing db with
  | nil => exact h
  | cons op rest ih =>
    rw [applyOps, List.foldl_cons]
    exact ih _ (basketCount_applyOp db op uid h)

/-- Witness for C4: two consecutive adds (plus an update and a delete)
by user 1, on a store holding only user 1's contact row (so the basket
insert passes the foreign-key check and really happens), leave user 1
with exactly one basket. -/
theorem basket_state_singleton_witness :
    basketCount exContactsDb 1 ≤ 1 ∧
    basketCount (applyOps exContactsDb
      [.add exBuyer (.entries [⟨1, 1, 2⟩]), .add exBuyer (.entries [⟨2, 1, 3⟩]),
       .update exBuyer (.entries [⟨some 1, some 7⟩]), .remove exBuyer "1"]) 1 ≤ 1 :=
  ⟨by decide, basket_state_singleton exContactsDb 1
    [.add exBuyer (.entries [⟨1, 1, 2⟩]), .add exBuyer (.entries [⟨2, 1, 3⟩]),
     .update exBuyer (.entries [⟨some 1, some 7⟩]), .remove exBuyer "1"] (by decide)⟩

/-- C1.  The three order-listing views never return an annotated order
at all: on the order of `models.py`, the annotation path
`ordered_items__product_info__price` (and, for `OrderView.get`, the
`select_related("contact")` name) does not resolve — `OrderItem`'s
foreign key to `ProductInfo` is named `product` and `Order` has no
`contact` field — so every authenticated call of `BasketView.get`,
`OrderView.get` and `SellerOrdersView.get` raises `FieldError` instead
of returning orders with a `total_sum`, here evaluated on a store whose
basket would have total 2 × 100 + 3 × 50 = 350. -/
theorem order_views_raise_field_error :
    basketGet exListingDb exBuyer = .uncaught .fieldError ∧
    orderGet exListingDb exBuyer = .uncaught .fieldError ∧
    sellerOrdersGet exListingDb exSeller = .uncaught .fieldError ∧
    orderTotal exListingDb 1 = 350 := by
  decide

/-- C3.  Importing the spec's example document (`seller "Acme"`, one
category, the Hammer good with parameter Weight = 1kg) does not produce
the promised `ProductInfo`: the category loop evaluates
`category_object.sellers`, an attribute `Category` does not have (its
many-to-many field is `shops`), so the import raises `AttributeError`
before the goods are ever processed and the store ends with no
`ProductInfo` row at all. -/
theorem example_import_crashes_without_stock :
    (catalogPost emptyDb exSeller (some "http://acme.example/cat.yaml")
        (fun _ => true) exDoc).2 = .uncaught .attributeError ∧
    (catalogPost emptyDb exSeller (some "http://acme.example/cat.yaml")
        (fun _ => true) exDoc).1.productInfos = [] ∧
    (catalogPost emptyDb exSeller (some "http://acme.example/cat.yaml")
        (fun _ => true) exDoc).1.productParameters = [] := by
  decide

/-- C9.  The category upsert loop never completes its contract: on a
document with two categories it upserts only the first category, never
adds the importing seller to that category's seller set (`shops` stays
empty), never reaches the second category, and aborts with
`AttributeError`, because views.py line 76 reads `category_object.sellers`
while the model's many-to-many field is named `shops`. -/
theorem category_loop_aborts_without_seller_link :
    (catalogPost emptyDb exSeller (some "http://acme.example/cat.yaml")
        (fun _ => true) exDoc2).1.categories = [⟨1, "Tools", []⟩] ∧
    (catalogPost emptyDb exSeller (some "http://acme.example/cat.yaml")
        (fun _ => true) exDoc2).2 = .uncaught .attributeError := by
  decide

/-- C5.  The order-placement handler performs no state transition at
all: its update names the kwarg `contact_id`, which `Order` does not
have (the contact foreign key is the field `user`), so the call raises
`FieldError` before writing, and the caller's basket order keeps state
"basket"; in particular no order is ever set to "new". -/
theorem order_placement_never_transitions :
    orderPost exPlaceDb exBuyer (some "1") (some "1") = (exPlaceDb, .uncaught .fieldError) ∧
    (orderPost exPlaceDb exBuyer (some "1") (some "1")).1.orders = [⟨1, 1, 0, "basket"⟩] := by
  decide

/-- C6.  Calling order placement with an invalid contact id (999, no
such contact exists) does leave the order untouched, but the failure is
an uncaught `FieldError` — the handler only catches `IntegrityError`,
and the update dies earlier on the nonexistent `contact_id` field — not
the explicit argument-error response the claim requires. -/
theorem order_placement_invalid_contact_uncaught :
    orderPost exBadContactDb exBuyer (some "7") (some "999")
      = (exBadContactDb, .uncaught .fieldError) ∧
    (orderPost exBadContactDb exBuyer (some "7") (some "999")).1.orders
      = [⟨7, 1, 0, "basket"⟩] := by
  decide

/-- C7.  The basket add call does not process its whole list: the
success return sits inside the per-entry loop (views.py 325), so on a
two-entry list only the first `OrderItem` is created and the response
reports one created object. -/
theorem basket_add_creates_only_first :
    (basketPost exBasketDb exBuyer (.entries [⟨1, 1, 2⟩, ⟨2, 1, 3⟩])).2
      = .createdObjects 1 ∧
    (basketPost exBasketDb exBuyer (.entries [⟨1, 1, 2⟩, ⟨2, 1, 3⟩])).1.orderItems
      = [⟨1, 1, 1, 1, 2⟩] := by
  decide

theorem putOne_orderIds (db : Db) (bid : Nat) (e : PutEntry) :
    ∀ oi ∈ (putOne db bid e).1.orderItems, ∃ oi₀ ∈ db.orderItems, oi.order_id = oi₀.order_id := by
  unfold putOne
  rcases e.idVal with _ | i <;> rcases e.qtyVal with _ | q
  · exact fun oi h => ⟨oi, h, rfl⟩
  · exact fun oi h => ⟨oi, h, rfl⟩
  · exact fun oi h => ⟨oi, h, rfl⟩
  · intro oi h
    simp only [List.mem_map] at h
    obtain ⟨oi₀, h₀, rfl⟩ := h
    by_cases hc : oi₀.order_id = bid ∧ oi₀.id = i
    · exact ⟨oi₀, h₀, by simp [hc]⟩
    · exact ⟨oi₀, h₀, by simp [hc]⟩

theorem putLoop_orderIds (l : List PutEntry) (db : Db) (bid : Nat) :
    ∀ oi ∈ (putLoop db bid l).1.orderItems, ∃ oi₀ ∈ db.orderItems, oi.order_id = oi₀.order_id := by
  induction l generalizing db with
  | nil => exact fun oi h => ⟨oi, h, rfl⟩
  | cons e rest ih =>
    rw [putLoop_cons]
    intro oi h
    obtain ⟨oi₁, h₁, he₁⟩ := ih (putOne db bid e).1 oi h
    obtain ⟨oi₀, h₀, he₀⟩ := putOne_orderIds db bid e oi₁ h₁
    exact ⟨oi₀, h₀, he₁.trans he₀⟩

/-- C8.  The basket delete call only ever removes order items of the
caller's own basket: any item present before the call and absent after
it belonged to an order of the caller in "basket" state, and its id was
one of the numeric tokens of the `items` string (so an item in another
user's basket survives, whatever ids are passed, and non-numeric tokens
are ignored).  Referential integrity of `OrderItem.order` is assumed so
that a freshly created basket cannot capture a pre-existing item. -/
theorem basket_delete_only_callers_items (db : Db) (u : ReqUser) (itemsStr : String)
    (it : OrderItem)
    (hfk : WfOrderRefs db)
    (hmem : it ∈ db.orderItems)
    (hgone : it ∉ (basketDelete db u itemsStr).1.orderItems) :
    (∃ o ∈ db.orders, o.id = it.order_id ∧ o.user_id = u.id ∧ o.state = "basket")
      ∧ it.id ∈ numericIds itemsStr := by
  unfold basketDelete at hgone
  cases hA : u.isAuthenticated with
  | false => rw [hA] at hgone; simp at hgone; exact absurd hmem hgone
  | true =>
    rw [hA] at hgone
    by_cases hemp : itemsStr.isEmpty
    · simp [hemp] at hgone; exact absurd hmem hgone
    · simp only [hemp, Bool.not_true, Bool.false_eq_true, if_false] at hgone
      unfold basketGetOrCreate at hgone
      rcases hm : basketMatches db.orders u.id with _ | ⟨b, _ | ⟨b2, rest⟩⟩ <;>
        rw [hm] at hgone
      · -- no basket: either a fresh one is created (and nothing can
        -- reference its id) or the insert dies on the Contact FK,
        -- deleting nothing
        by_cases hc : (db.contacts.any fun ct => decide (ct.id = u.id)) = true
        · by_cases hids : (numericIds itemsStr).isEmpty
          · simp [hc, hids] at hgone; exact absurd hmem hgone
          · simp only [hc, if_true, hids, if_false, Bool.false_eq_true] at hgone
            have hp : ¬ ((!decide (it.order_id = freshId (db.orders.map (·.id)) ∧
                it.id ∈ numericIds itemsStr)) = true) := by
              intro hp
              exact hgone (List.mem_filter.mpr ⟨hmem, hp⟩)
            simp only [Bool.not_eq_true', decide_eq_false_iff_not, not_not] at hp
            obtain ⟨o, ho, hoid⟩ := hfk it hmem
            have : freshId (db.orders.map (·.id)) ∈ db.orders.map (·.id) := by
              rw [← hp.1, ← hoid]
              exact List.mem_map.mpr ⟨o, ho, rfl⟩
            exact absurd this (freshId_not_mem _)
        · simp [hc] at hgone
          exact absurd hmem hgone
      · -- existing basket b of the caller
        have hb := List.mem_filter.mp (hm ▸ List.mem_singleton_self b)
        have hbprops : b.user_id = u.id ∧ b.state = "basket" := by
          have := hb.2; simpa using this
        by_cases hids : (numericIds itemsStr).isEmpty
        · simp [hids] at hgone; exact absurd hmem hgone
        · simp only [hids, if_false, Bool.false_eq_true] at hgone
          have hp : ¬ ((!decide (it.order_id = b.id ∧ it.id ∈ numericIds itemsStr)) = true) := by
            intro hp
            exact hgone (List.mem_filter.mpr ⟨hmem, hp⟩)
          simp only [Bool.not_eq_true', decide_eq_false_iff_not, not_not] at hp
          exact ⟨⟨b, hb.1, hp.1.symm, hbprops.1, hbprops.2⟩, hp.2⟩
      · simp at hgone; exact absurd hmem hgone

/-- Witness for C8: in a store with two users' baskets, user 1 passes
"1,2,x"; item 1 (their own) is indeed deleted, and the theorem places it
in user 1's own basket with a numeric token naming it. -/
theorem basket_delete_only_callers_items_witness :
    WfOrderRefs exTwoBasketsDb ∧
    (⟨1, 1, 5, 1, 2⟩ : OrderItem) ∈ exTwoBasketsDb.orderItems ∧
    (⟨1, 1, 5, 1, 2⟩ : OrderItem) ∉ (basketDelete exTwoBasketsDb exBuyer "1,2,x").1.orderItems ∧
    ((∃ o ∈ exTwoBasketsDb.orders, o.id = 1 ∧ o.user_id = 1 ∧ o.state = "basket")
      ∧ 1 ∈ numericIds "1,2,x") :=
  ⟨by unfold WfOrderRefs; decide, by decide, by decide,
    basket_delete_only_callers_items exTwoBasketsDb exBuyer "1,2,x" ⟨1, 1, 5, 1, 2⟩
      (by unfold WfOrderRefs; decide) (by decide) (by decide)⟩

/-- C10 counterexample: the claim's unconditional creation fails when no
`Contact` row carries the caller's user id.  `Order.user` is a foreign
key into `Contact` (models.py 170-177), so in a store with no contact
rows the basket insert performed by `get_or_create` violates the
constraint: both the PUT (with a parsed entry) and the DELETE (with a
numeric token) die with an uncaught `IntegrityError` and leave the
store — in particular its orders — untouched. -/
theorem put_delete_no_contact_no_basket :
    basketPut exTwoBasketsDb ⟨9, true, "buyer"⟩ (.entries [⟨some 1, some 2⟩])
      = (exTwoBasketsDb, .uncaught .integrityError) ∧
    basketDelete exTwoBasketsDb ⟨9, true, "buyer"⟩ "1"
      = (exTwoBasketsDb, .uncaught .integrityError) := by
  decide

/-- C10 (amended).  A user with no basket who calls basket update (PUT)
or basket delete (DELETE) with a non-empty `items` argument gets a fresh
empty "basket"-state order created as a side effect — provided some
`Contact` row carries the caller's user id, since the insert performed
by `Order.objects.get_or_create(user_id=..., state="basket")` (views.py
343-345, 377-379) must satisfy the `Order.user` foreign key into
`Contact` (models.py 170-177); with no such contact the insert raises
an uncaught `IntegrityError` and creates nothing (see the
counterexample).  The created order is new (not in the prior store) and
empty (no order item of the resulting store references it; referential
integrity of `OrderItem.order` in the prior store is assumed). -/
theorem put_delete_create_empty_basket (db : Db) (u : ReqUser) (parg : PutArg)
    (itemsStr : String)
    (hauth : u.isAuthenticated = true)
    (hfk : WfOrderRefs db)
    (hct : ∃ ct ∈ db.contacts, ct.id = u.id)
    (hnob : basketMatches db.orders u.id = [])
    (hparg : parg ≠ PutArg.absent)
    (hne : itemsStr.isEmpty = false) :
    (∃ b ∈ (basketPut db u parg).1.orders, b ∉ db.orders ∧ b.user_id = u.id ∧
       b.state = "basket" ∧ ∀ oi ∈ (basketPut db u parg).1.orderItems, oi.order_id ≠ b.id) ∧
    (∃ b ∈ (basketDelete db u itemsStr).1.orders, b ∉ db.orders ∧ b.user_id = u.id ∧
       b.state = "basket" ∧ ∀ oi ∈ (basketDelete db u itemsStr).1.orderItems, oi.order_id ≠ b.id) := by
  set bnew : Order := ⟨freshId (db.orders.map (·.id)), u.id, 0, "basket"⟩ with hbnew
  have hct' : (db.contacts.any fun ct => decide (ct.id = u.id)) = true := by
    obtain ⟨ct, h1, h2⟩ := hct
    simp only [List.any_eq_true, decide_eq_true_eq]
    exact ⟨ct, h1, h2⟩
  have hgoc : basketGetOrCreate db u.id = ({ db with orders := db.orders ++ [bnew] }, .ok bnew) := by
    unfold basketGetOrCreate
    rw [hnob, if_pos hct']
  have hnotold : bnew ∉ db.orders := by
    intro hmem
    have h1 : bnew.id ∈ db.orders.map (·.id) := List.mem_map.mpr ⟨bnew, hmem, rfl⟩
    rw [hbnew] at h1
    exact freshId_not_mem _ h1
  have hfreshref : ∀ oi ∈ db.orderItems, oi.order_id ≠ bnew.id := by
    intro oi hoi heq
    obtain ⟨o, ho, hoid⟩ := hfk oi hoi
    have h1 : o.id ∈ db.orders.map (·.id) := List.mem_map.mpr ⟨o, ho, rfl⟩
    rw [hoid, heq, hbnew] at h1
    exact freshId_not_mem _ h1
  constructor
  · cases parg with
    | absent => exact absurd rfl hparg
    | malformed =>
      refine ⟨bnew, ?_, hnotold, rfl, rfl, ?_⟩
      · simp [basketPut, hauth, hgoc]
      · intro oi hoi
        apply hfreshref oi
        simpa [basketPut, hauth, hgoc] using hoi
    | entries l =>
      refine ⟨bnew, ?_, hnotold, rfl, rfl, ?_⟩
      · have horders := putLoop_orders l { db with orders := db.orders ++ [bnew] } bnew.id
        simp [basketPut, hauth, hgoc, horders]
      · intro oi hoi
        have hoi' : oi ∈ (putLoop { db with orders := db.orders ++ [bnew] } bnew.id l).1.orderItems := by
          simpa [basketPut, hauth, hgoc] using hoi
        obtain ⟨oi₀, h₀, he₀⟩ := putLoop_orderIds l _ bnew.id oi hoi'
        rw [he₀]
        exact hfreshref oi₀ h₀
  · refine ⟨bnew, ?_, hnotold, rfl, rfl, ?_⟩
    · by_cases hids : (numericIds itemsStr).isEmpty <;>
        simp [basketDelete, hauth, hne, hgoc, hids]
    · intro oi hoi
      by_cases hids : (numericIds itemsStr).isEmpty
      · apply hfreshref oi
        simpa [basketDelete, hauth, hne, hgoc, hids] using hoi
      · have hoi2 : oi ∈ db.orderItems := by
          have h := hoi
          simp [basketDelete, hauth, hne, hgoc, hids] at h
          exact h.1
        exact hfreshref oi hoi2

/-- Witness for C10: user 5, who owns contact 5 but has no basket in a
store holding other users' baskets and items, issues a PUT and a
DELETE; both leave user 5 with a brand-new empty basket. -/
theorem put_delete_create_empty_basket_witness :
    (⟨5, true, "buyer"⟩ : ReqUser).isAuthenticated = true ∧
    WfOrderRefs exBasketlessUserDb ∧
    (∃ ct ∈ exBasketlessUserDb.contacts, ct.id = 5) ∧
    basketMatches exBasketlessUserDb.orders 5 = [] ∧
    ((∃ b ∈ (basketPut exBasketlessUserDb ⟨5, true, "buyer"⟩
        (.entries [⟨some 1, some 9⟩])).1.orders, b ∉ exBasketlessUserDb.orders ∧ b.user_id = 5 ∧
       b.state = "basket" ∧ ∀ oi ∈ (basketPut exBasketlessUserDb ⟨5, true, "buyer"⟩
        (.entries [⟨some 1, some 9⟩])).1.orderItems, oi.order_id ≠ b.id) ∧
     (∃ b ∈ (basketDelete exBasketlessUserDb ⟨5, true, "buyer"⟩ "1").1.orders,
        b ∉ exBasketlessUserDb.orders ∧ b.user_id = 5 ∧
       b.state = "basket" ∧ ∀ oi ∈ (basketDelete exBasketlessUserDb ⟨5, true, "buyer"⟩
        "1").1.orderItems, oi.order_id ≠ b.id)) :=
  ⟨by decide, by unfold WfOrderRefs; decide, ⟨⟨5, 5, "addr", "phone"⟩, by decide, rfl⟩,
    by decide,
    put_delete_create_empty_basket exBasketlessUserDb ⟨5, true, "buyer"⟩
      (.entries [⟨some 1, some 9⟩]) "1" (by decide) (by unfold WfOrderRefs; decide)
      ⟨⟨5, 5, "addr", "phone"⟩, by decide, rfl⟩ (by decide) (by decide) (by decide)⟩

/-! #### Catalog-import idempotence machinery (for C2)

The second run of an identical import re-resolves every
`get_or_create` lookup against the state the first run left behind; the
lemmas below show each lookup resolves to the very row the first run
used (match stability), that the loops only append rows (decomposition),
and that replaying the goods loop against its own final products and
parameters rebuilds the identical product-info and product-parameter
tables (replay). -/

theorem prodMatches_append (a b : List Product) (nm : String) (cid : Nat) :
    prodMatches (a ++ b) nm cid = prodMatches a nm cid ++ prodMatches b nm cid := by
  simp [prodMatches]

theorem parMatches_append (a b : List Parameter) (nm : String) :
    parMatches (a ++ b) nm = parMatches a nm ++ parMatches b nm := by
  simp [parMatches]

theorem sellerMatches_append (a b : List Seller) (nm : String) (uid : Nat) :
    sellerMatches (a ++ b) nm uid = sellerMatches a nm uid ++ sellerMatches b nm uid := by
  simp [sellerMatches]

theorem categoryMatches_append (a b : List Category) (i : Nat) (nm : String) :
    categoryMatches (a ++ b) i nm = categoryMatches a i nm ++ categoryMatches b i nm := by
  simp [categoryMatches]

theorem goc_par_nil {db : Db} {nm : String} (h : parMatches db.parameters nm = []) :
    getOrCreateParameter db nm
      = some ({ db with parameters :=
            db.parameters ++ [⟨freshId (db.parameters.map (·.id)), nm⟩] },
          freshId (db.parameters.map (·.id))) := by
  unfold getOrCreateParameter; rw [h]

theorem goc_par_single {db : Db} {nm : String} {w : Parameter}
    (h : parMatches db.parameters nm = [w]) :
    getOrCreateParameter db nm = some (db, w.id) := by
  unfold getOrCreateParameter; rw [h]

theorem goc_par_multi {db : Db} {nm : String} {w w2 : Parameter} {ws : List Parameter}
    (h : parMatches db.parameters nm = w :: w2 :: ws) :
    getOrCreateParameter db nm = none := by
  unfold getOrCreateParameter; rw [h]

theorem goc_prod_nil {db : Db} {nm : String} {cid : Nat}
    (h : prodMatches db.products nm cid = []) :
    getOrCreateProduct db nm cid
      = some ({ db with products :=
            db.products ++ [⟨freshId (db.products.map (·.id)), nm, cid⟩] },
          freshId (db.products.map (·.id))) := by
  unfold getOrCreateProduct; rw [h]

theorem goc_prod_single {db : Db} {nm : String} {cid : Nat} {p : Product}
    (h : prodMatches db.products nm cid = [p]) :
    getOrCreateProduct db nm cid = some (db, p.id) := by
  unfold getOrCreateProduct; rw [h]

theorem goc_prod_multi {db : Db} {nm : String} {cid : Nat} {p p2 : Product} {pl : List Product}
    (h : prodMatches db.products nm cid = p :: p2 :: pl) :
    getOrCreateProduct db nm cid = none := by
  unfold getOrCreateProduct; rw [h]

theorem goc_seller_nil {db : Db} {nm : String} {uid : Nat}
    (h : sellerMatches db.sellers nm uid = []) :
    getOrCreateSeller db nm uid
      = some ({ db with sellers :=
            db.sellers ++ [⟨freshId (db.sellers.map (·.id)), some uid, nm, true, none⟩] },
          ⟨freshId (db.sellers.map (·.id)), some uid, nm, true, none⟩) := by
  unfold getOrCreateSeller; rw [h]

theorem goc_seller_single {db : Db} {nm : String} {uid : Nat} {s : Seller}
    (h : sellerMatches db.sellers nm uid = [s]) :
    getOrCreateSeller db nm uid = some (db, s) := by
  unfold getOrCreateSeller; rw [h]

theorem goc_seller_multi {db : Db} {nm : String} {uid : Nat} {s s2 : Seller} {sl : List Seller}
    (h : sellerMatches db.sellers nm uid = s :: s2 :: sl) :
    getOrCreateSeller db nm uid = none := by
  unfold getOrCreateSeller; rw [h]

theorem paramsLoop_cons_create {db : Db} {piId : Nat} {xn xv : String}
    {rest : List (String × String)} (h : parMatches db.parameters xn = []) :
    paramsLoop db piId ((xn, xv) :: rest)
      = paramsLoop
          { db with
            parameters := db.parameters ++ [⟨freshId (db.parameters.map (·.id)), xn⟩]
            productParameters := db.productParameters ++
              [⟨freshId (db.productParameters.map (·.id)), piId,
                freshId (db.parameters.map (·.id)), xv⟩] }
          piId rest := by
  simp only [paramsLoop]
  rw [goc_par_nil h]

theorem paramsLoop_cons_found {db : Db} {piId : Nat} {xn xv : String}
    {rest : List (String × String)} {w : Parameter}
    (h : parMatches db.parameters xn = [w]) :
    paramsLoop db piId ((xn, xv) :: rest)
      = paramsLoop
          { db with productParameters := db.productParameters ++
              [⟨freshId (db.productParameters.map (·.id)), piId, w.id, xv⟩] }
          piId rest := by
  simp only [paramsLoop]
  rw [goc_par_single h]

theorem paramsLoop_cons_multi {db : Db} {piId : Nat} {xn xv : String}
    {rest : List (String × String)} {w w2 : Parameter} {ws : List Parameter}
    (h : parMatches db.parameters xn = w :: w2 :: ws) :
    paramsLoop db piId ((xn, xv) :: rest) = (db, some .multipleObjectsReturned) := by
  simp only [paramsLoop]
  rw [goc_par_multi h]

theorem goodsLoop_cons_create {db : Db} {sid : Nat} {g : Good} {rest : List Good}
    (h : prodMatches db.products g.name g.category = []) :
    goodsLoop db sid (g :: rest)
      = (match paramsLoop
            { db with
              products := db.products ++
                [⟨freshId (db.products.map (·.id)), g.name, g.category⟩]
              productInfos := db.productInfos ++
                [⟨freshId (db.productInfos.map (·.id)), g.model,
                  freshId (db.products.map (·.id)), sid,
                  g.quantity, g.price, g.price_rrc, g.id⟩] }
            (freshId (db.productInfos.map (·.id))) g.parameters with
         | (db3, some e) => (db3, some e)
         | (db3, none) => goodsLoop db3 sid rest) := by
  simp only [goodsLoop]
  rw [goc_prod_nil h]

theorem goodsLoop_cons_found {db : Db} {sid : Nat} {g : Good} {rest : List Good} {p : Product}
    (h : prodMatches db.products g.name g.category = [p]) :
    goodsLoop db sid (g :: rest)
      = (match paramsLoop
            { db with productInfos := db.productInfos ++
                [⟨freshId (db.productInfos.map (·.id)), g.model, p.id, sid,
                  g.quantity, g.price, g.price_rrc, g.id⟩] }
            (freshId (db.productInfos.map (·.id))) g.parameters with
         | (db3, some e) => (db3, some e)
         | (db3, none) => goodsLoop db3 sid rest) := by
  simp only [goodsLoop]
  rw [goc_prod_single h]

theorem goodsLoop_cons_multi {db : Db} {sid : Nat} {g : Good} {rest : List Good}
    {p p2 : Product} {pl : List Product}
    (h : prodMatches db.products g.name g.category = p :: p2 :: pl) :
    goodsLoop db sid (g :: rest) = (db, some .multipleObjectsReturned) := by
  simp only [goodsLoop]
  rw [goc_prod_multi h]

/-- The parameter loop only appends: to `parameters` some rows and to
`productParameters` some rows, all of the latter attached to `piId`. -/
theorem paramsLoop_decomp (ps : List (String × String)) :
    ∀ (db : Db) (piId : Nat), ∃ qs pps,
      (paramsLoop db piId ps).1
        = { db with
            parameters := db.parameters ++ qs
            productParameters := db.productParameters ++ pps }
      ∧ ∀ pp ∈ pps, pp.product_info_id = piId := by
  induction ps with
  | nil =>
    intro db piId
    exact ⟨[], [], by simp [paramsLoop], by simp⟩
  | cons x rest ih =>
    intro db piId
    obtain ⟨xn, xv⟩ := x
    rcases hm : parMatches db.parameters xn with _ | ⟨w, _ | ⟨w2, ws⟩⟩
    · rw [paramsLoop_cons_create hm]
      obtain ⟨qs, pps, heq, hpps⟩ := ih _ piId
      refine ⟨⟨freshId (db.parameters.map (·.id)), xn⟩ :: qs,
        ⟨freshId (db.productParameters.map (·.id)), piId,
          freshId (db.parameters.map (·.id)), xv⟩ :: pps, ?_, ?_⟩
      · rw [heq]
        simp
      · intro pp hpp
        rcases List.mem_cons.mp hpp with rfl | hpp
        · rfl
        · exact hpps pp hpp
    · rw [paramsLoop_cons_found hm]
      obtain ⟨qs, pps, heq, hpps⟩ := ih _ piId
      refine ⟨qs,
        ⟨freshId (db.productParameters.map (·.id)), piId, w.id, xv⟩ :: pps, ?_, ?_⟩
      · rw [heq]
        simp
      · intro pp hpp
        rcases List.mem_cons.mp hpp with rfl | hpp
        · rfl
        · exact hpps pp hpp
    · rw [paramsLoop_cons_multi hm]
      exact ⟨[], [], by simp, by simp⟩

theorem paramsLoop_products (ps : List (String × String)) (db : Db) (piId : Nat) :
    (paramsLoop db piId ps).1.products = db.products := by
  obtain ⟨qs, pps, heq, _⟩ := paramsLoop_decomp ps db piId
  rw [heq]

theorem paramsLoop_productInfos (ps : List (String × String)) (db : Db) (piId : Nat) :
    (paramsLoop db piId ps).1.productInfos = db.productInfos := by
  obtain ⟨qs, pps, heq, _⟩ := paramsLoop_decomp ps db piId
  rw [heq]

theorem paramsLoop_sellers (ps : List (String × String)) (db : Db) (piId : Nat) :
    (paramsLoop db piId ps).1.sellers = db.sellers := by
  obtain ⟨qs, pps, heq, _⟩ := paramsLoop_decomp ps db piId
  rw [heq]

/-- Match stability of parameter names over the parameter loop: a name
that already has matches keeps exactly those matches. -/
theorem paramsLoop_parMatches (ps : List (String × String)) :
    ∀ (db : Db) (piId : Nat) (nm : String), parMatches db.parameters nm ≠ [] →
      parMatches (paramsLoop db piId ps).1.parameters nm = parMatches db.parameters nm := by
  induction ps with
  | nil => intro db piId nm _; rfl
  | cons x rest ih =>
    intro db piId nm h
    obtain ⟨xn, xv⟩ := x
    rcases hm : parMatches db.parameters xn with _ | ⟨w, _ | ⟨w2, ws⟩⟩
    · rw [paramsLoop_cons_create hm]
      have hne : xn ≠ nm := by
        rintro rfl
        exact h hm
      have hsing : parMatches [(⟨freshId (db.parameters.map (·.id)), xn⟩ : Parameter)] nm = [] := by
        simp [parMatches, hne]
      have hstep : parMatches (db.parameters ++
          [(⟨freshId (db.parameters.map (·.id)), xn⟩ : Parameter)]) nm
          = parMatches db.parameters nm := by
        rw [parMatches_append, hsing, List.append_nil]
      rw [ih _ piId nm (by
        show parMatches (db.parameters ++ _) nm ≠ []
        rw [hstep]; exact h)]
      exact hstep
    · rw [paramsLoop_cons_found hm]
      exact ih _ piId nm h
    · rw [paramsLoop_cons_multi hm]

/-- Match stability of product keys over the goods loop. -/
theorem goodsLoop_prodMatches (gs : List Good) :
    ∀ (db : Db) (sid : Nat) (nm : String) (cid : Nat),
      prodMatches db.products nm cid ≠ [] →
      prodMatches (goodsLoop db sid gs).1.products nm cid = prodMatches db.products nm cid := by
  induction gs with
  | nil => intro db sid nm cid _; rfl
  | cons g rest ih =>
    intro db sid nm cid h
    rcases hm : prodMatches db.products g.name g.category with _ | ⟨p, _ | ⟨p2, pl⟩⟩
    · rw [goodsLoop_cons_create hm]
      have hne : ¬ (g.name = nm ∧ g.category = cid) := by
        rintro ⟨rfl, rfl⟩
        exact h hm
      have hstep : prodMatches (db.products ++
          [(⟨freshId (db.products.map (·.id)), g.name, g.category⟩ : Product)]) nm cid
          = prodMatches db.products nm cid := by
        rw [prodMatches_append]
        have hsing : prodMatches
            [(⟨freshId (db.products.map (·.id)), g.name, g.category⟩ : Product)] nm cid = [] := by
          simp [prodMatches, hne]
        rw [hsing, List.append_nil]
      rcases hp : paramsLoop
          { db with
            products := db.products ++
              [⟨freshId (db.products.map (·.id)), g.name, g.category⟩]
            productInfos := db.productInfos ++
              [⟨freshId (db.productInfos.map (·.id)), g.model,
                freshId (db.products.map (·.id)), sid,
                g.quantity, g.price, g.price_rrc, g.id⟩] }
          (freshId (db.productInfos.map (·.id))) g.parameters with ⟨db3, eo⟩
      have hdb3p : db3.products = db.products ++
          [(⟨freshId (db.products.map (·.id)), g.name, g.category⟩ : Product)] := by
        have h2 := paramsLoop_products g.parameters
          { db with
            products := db.products ++
              [⟨freshId (db.products.map (·.id)), g.name, g.category⟩]
            productInfos := db.productInfos ++
              [⟨freshId (db.productInfos.map (·.id)), g.model,
                freshId (db.products.map (·.id)), sid,
                g.quantity, g.price, g.price_rrc, g.id⟩] }
          (freshId (db.productInfos.map (·.id)))
        rw [hp] at h2
        exact h2
      cases eo with
      | some e =>
        simp only [hp]
        rw [hdb3p, hstep]
      | none =>
        simp only [hp]
        rw [ih db3 sid nm cid (by rw [hdb3p, hstep]; exact h), hdb3p, hstep]
    · rw [goodsLoop_cons_found hm]
      rcases hp : paramsLoop
          { db with productInfos := db.productInfos ++
              [⟨freshId (db.productInfos.map (·.id)), g.model, p.id, sid,
                g.quantity, g.price, g.price_rrc, g.id⟩] }
          (freshId (db.productInfos.map (·.id))) g.parameters with ⟨db3, eo⟩
      have hdb3p : db3.products = db.products := by
        have h2 := paramsLoop_products g.parameters
          { db with productInfos := db.productInfos ++
              [⟨freshId (db.productInfos.map (·.id)), g.model, p.id, sid,
                g.quantity, g.price, g.price_rrc, g.id⟩] }
          (freshId (db.productInfos.map (·.id)))
        rw [hp] at h2
        exact h2
      cases eo with
      | some e =>
        simp only [hp]
        rw [hdb3p]
      | none =>
        simp only [hp]
        rw [ih db3 sid nm cid (by rw [hdb3p]; exact h), hdb3p]
    · rw [goodsLoop_cons_multi hm]

/-- Match stability of parameter names over the goods loop. -/
theorem goodsLoop_parMatches (gs : List Good) :
    ∀ (db : Db) (sid : Nat) (nm : String),
      parMatches db.parameters nm ≠ [] →
      parMatches (goodsLoop db sid gs).1.parameters nm = parMatches db.parameters nm := by
  induction gs with
  | nil => intro db sid nm _; rfl
  | cons g rest ih =>
    intro db sid nm h
    rcases hm : prodMatches db.products g.name g.category with _ | ⟨p, _ | ⟨p2, pl⟩⟩
    · rw [goodsLoop_cons_create hm]
      rcases hp : paramsLoop
          { db with
            products := db.products ++
              [⟨freshId (db.products.map (·.id)), g.name, g.category⟩]
            productInfos := db.productInfos ++
              [⟨freshId (db.productInfos.map (·.id)), g.model,
                freshId (db.products.map (·.id)), sid,
                g.quantity, g.price, g.price_rrc, g.id⟩] }
          (freshId (db.productInfos.map (·.id))) g.parameters with ⟨db3, eo⟩
      have hpar : parMatches db3.parameters nm = parMatches db.parameters nm := by
        have h2 := paramsLoop_parMatches g.parameters
          { db with
            products := db.products ++
              [⟨freshId (db.products.map (·.id)), g.name, g.category⟩]
            productInfos := db.productInfos ++
              [⟨freshId (db.productInfos.map (·.id)), g.model,
                freshId (db.products.map (·.id)), sid,
                g.quantity, g.price, g.price_rrc, g.id⟩] }
          (freshId (db.productInfos.map (·.id))) nm h
        rw [hp] at h2
        exact h2
      cases eo with
      | some e =>
        simp only [hp]
        exact hpar
      | none =>
        simp only [hp]
        rw [ih db3 sid nm (by rw [hpar]; exact h), hpar]
    · rw [goodsLoop_cons_found hm]
      rcases hp : paramsLoop
          { db with productInfos := db.productInfos ++
              [⟨freshId (db.productInfos.map (·.id)), g.model, p.id, sid,
                g.quantity, g.price, g.price_rrc, g.id⟩] }
          (freshId (db.productInfos.map (·.id))) g.parameters with ⟨db3, eo⟩
      have hpar : parMatches db3.parameters nm = parMatches db.parameters nm := by
        have h2 := paramsLoop_parMatches g.parameters
          { db with productInfos := db.productInfos ++
              [⟨freshId (db.productInfos.map (·.id)), g.model, p.id, sid,
                g.quantity, g.price, g.price_rrc, g.id⟩] }
          (freshId (db.productInfos.map (·.id))) nm h
        rw [hp] at h2
        exact h2
      cases eo with
      | some e =>
        simp only [hp]
        exact hpar
      | none =>
        simp only [hp]
        rw [ih db3 sid nm (by rw [hpar]; exact h), hpar]
    · rw [goodsLoop_cons_multi hm]

theorem freshPI_ne (l : List ProductInfo) : ∀ x ∈ l, x.id ≠ freshId (l.map (·.id)) := by
  intro x hx h
  apply freshId_not_mem (l.map (·.id))
  rw [← h]
  exact List.mem_map.mpr ⟨x, hx, rfl⟩

/-- The goods loop only appends: products, product infos (all owned by
`sid`, with ids fresh with respect to the initial store), parameters,
and product parameters (each attached to one of the new infos). -/
theorem goodsLoop_decomp (gs : List Good) :
    ∀ (db : Db) (sid : Nat), ∃ prods pis qs pps,
      (goodsLoop db sid gs).1
        = { db with
            products := db.products ++ prods
            productInfos := db.productInfos ++ pis
            parameters := db.parameters ++ qs
            productParameters := db.productParameters ++ pps }
      ∧ (∀ pi ∈ pis, pi.seller_id = sid ∧ ∀ x ∈ db.productInfos, x.id ≠ pi.id)
      ∧ (∀ pp ∈ pps, ∃ pi ∈ pis, pp.product_info_id = pi.id) := by
  induction gs with
  | nil =>
    intro db sid
    exact ⟨[], [], [], [], by simp [goodsLoop], by simp, by simp⟩
  | cons g rest ih =>
    intro db sid
    rcases hm : prodMatches db.products g.name g.category with _ | ⟨p, _ | ⟨p2, pl⟩⟩
    · rw [goodsLoop_cons_create hm]
      rcases hp : paramsLoop
          { db with
            products := db.products ++
              [⟨freshId (db.products.map (·.id)), g.name, g.category⟩]
            productInfos := db.productInfos ++
              [⟨freshId (db.productInfos.map (·.id)), g.model,
                freshId (db.products.map (·.id)), sid,
                g.quantity, g.price, g.price_rrc, g.id⟩] }
          (freshId (db.productInfos.map (·.id))) g.parameters with ⟨db3, eo⟩
      obtain ⟨qs0, pps0, hdec0, hpps0⟩ := paramsLoop_decomp g.parameters
          { db with
            products := db.products ++
              [⟨freshId (db.products.map (·.id)), g.name, g.category⟩]
            productInfos := db.productInfos ++
              [⟨freshId (db.productInfos.map (·.id)), g.model,
                freshId (db.products.map (·.id)), sid,
                g.quantity, g.price, g.price_rrc, g.id⟩] }
          (freshId (db.productInfos.map (·.id)))
      have hdb3 : db3 = { db with
          products := db.products ++
            [⟨freshId (db.products.map (·.id)), g.name, g.category⟩]
          productInfos := db.productInfos ++
            [⟨freshId (db.productInfos.map (·.id)), g.model,
              freshId (db.products.map (·.id)), sid,
              g.quantity, g.price, g.price_rrc, g.id⟩]
          parameters := db.parameters ++ qs0
          productParameters := db.productParameters ++ pps0 } := by
        have h2 := hdec0
        rw [hp] at h2
        exact h2
      have hpisStar : ∀ pi ∈ [(⟨freshId (db.productInfos.map (·.id)), g.model,
            freshId (db.products.map (·.id)), sid,
            g.quantity, g.price, g.price_rrc, g.id⟩ : ProductInfo)],
          pi.seller_id = sid ∧ ∀ x ∈ db.productInfos, x.id ≠ pi.id := by
        intro pi hpi
        rw [List.mem_singleton] at hpi
        subst hpi
        exact ⟨rfl, freshPI_ne db.productInfos⟩
      cases eo with
      | some e =>
        simp only [hp]
        refine ⟨[⟨freshId (db.products.map (·.id)), g.name, g.category⟩],
          [⟨freshId (db.productInfos.map (·.id)), g.model,
            freshId (db.products.map (·.id)), sid,
            g.quantity, g.price, g.price_rrc, g.id⟩], qs0, pps0, hdb3, hpisStar, ?_⟩
        intro pp hpp
        exact ⟨_, List.mem_singleton_self _, hpps0 pp hpp⟩
      | none =>
        simp only [hp]
        obtain ⟨prods1, pis1, qs1, pps1, hdec1, hpis1, hpps1⟩ := ih db3 sid
        have hdb3pi : db3.productInfos = db.productInfos ++
            [(⟨freshId (db.productInfos.map (·.id)), g.model,
              freshId (db.products.map (·.id)), sid,
              g.quantity, g.price, g.price_rrc, g.id⟩ : ProductInfo)] := by
          rw [hdb3]
        refine ⟨⟨freshId (db.products.map (·.id)), g.name, g.category⟩ :: prods1,
          (⟨freshId (db.productInfos.map (·.id)), g.model,
            freshId (db.products.map (·.id)), sid,
            g.quantity, g.price, g.price_rrc, g.id⟩ : ProductInfo) :: pis1,
          qs0 ++ qs1, pps0 ++ pps1, ?_, ?_, ?_⟩
        · rw [hdec1, hdb3]
          simp
        · intro pi hpi
          rcases List.mem_cons.mp hpi with rfl | hpi
          · exact hpisStar _ (List.mem_singleton_self _)
          · refine ⟨(hpis1 pi hpi).1, fun x hx => (hpis1 pi hpi).2 x ?_⟩
            rw [hdb3pi]
            exact List.mem_append_left _ hx
        · intro pp hpp
          rcases List.mem_append.mp hpp with hpp | hpp
          · exact ⟨_, List.mem_cons_self _ _, hpps0 pp hpp⟩
          · obtain ⟨pi, hpi, hid⟩ := hpps1 pp hpp
            exact ⟨pi, List.mem_cons_of_mem _ hpi, hid⟩
    · rw [goodsLoop_cons_found hm]
      rcases hp : paramsLoop
          { db with productInfos := db.productInfos ++
              [⟨freshId (db.productInfos.map (·.id)), g.model, p.id, sid,
                g.quantity, g.price, g.price_rrc, g.id⟩] }
          (freshId (db.productInfos.map (·.id))) g.parameters with ⟨db3, eo⟩
      obtain ⟨qs0, pps0, hdec0, hpps0⟩ := paramsLoop_decomp g.parameters
          { db with productInfos := db.productInfos ++
              [⟨freshId (db.productInfos.map (·.id)), g.model, p.id, sid,
                g.quantity, g.price, g.price_rrc, g.id⟩] }
          (freshId (db.productInfos.map (·.id)))
      have hdb3 : db3 = { db with
          productInfos := db.productInfos ++
            [⟨freshId (db.productInfos.map (·.id)), g.model, p.id, sid,
              g.quantity, g.price, g.price_rrc, g.id⟩]
          parameters := db.parameters ++ qs0
          productParameters := db.productParameters ++ pps0 } := by
        have h2 := hdec0
        rw [hp] at h2
        exact h2
      have hpisStar : ∀ pi ∈ [(⟨freshId (db.productInfos.map (·.id)), g.model, p.id, sid,
            g.quantity, g.price, g.price_rrc, g.id⟩ : ProductInfo)],
          pi.seller_id = sid ∧ ∀ x ∈ db.productInfos, x.id ≠ pi.id := by
        intro pi hpi
        rw [List.mem_singleton] at hpi
        subst hpi
        exact ⟨rfl, freshPI_ne db.productInfos⟩
      cases eo with
      | some e =>
        simp only [hp]
        refine ⟨[],
          [⟨freshId (db.productInfos.map (·.id)), g.model, p.id, sid,
            g.quantity, g.price, g.price_rrc, g.id⟩], qs0, pps0, ?_, hpisStar, ?_⟩
        · rw [hdb3]
          simp
        · intro pp hpp
          exact ⟨_, List.mem_singleton_self _, hpps0 pp hpp⟩
      | none =>
        simp only [hp]
        obtain ⟨prods1, pis1, qs1, pps1, hdec1, hpis1, hpps1⟩ := ih db3 sid
        have hdb3pi : db3.productInfos = db.productInfos ++
            [(⟨freshId (db.productInfos.map (·.id)), g.model, p.id, sid,
              g.quantity, g.price, g.price_rrc, g.id⟩ : ProductInfo)] := by
          rw [hdb3]
        refine ⟨prods1,
          (⟨freshId (db.productInfos.map (·.id)), g.model, p.id, sid,
            g.quantity, g.price, g.price_rrc, g.id⟩ : ProductInfo) :: pis1,
          qs0 ++ qs1, pps0 ++ pps1, ?_, ?_, ?_⟩
        · rw [hdec1, hdb3]
          simp
        · intro pi hpi
          rcases List.mem_cons.mp hpi with rfl | hpi
          · exact hpisStar _ (List.mem_singleton_self _)
          · refine ⟨(hpis1 pi hpi).1, fun x hx => (hpis1 pi hpi).2 x ?_⟩
            rw [hdb3pi]
            exact List.mem_append_left _ hx
        · intro pp hpp
          rcases List.mem_append.mp hpp with hpp | hpp
          · exact ⟨_, List.mem_cons_self _ _, hpps0 pp hpp⟩
          · obtain ⟨pi, hpi, hid⟩ := hpps1 pp hpp
            exact ⟨pi, List.mem_cons_of_mem _ hpi, hid⟩
    · rw [goodsLoop_cons_multi hm]
      exact ⟨[], [], [], [], by simp, by simp, by simp⟩

/-- Replaying the parameter loop in a state `u` that has the same
product parameters as `t` and whose parameters agree with the t-run's
final parameters on every already-matched name rebuilds the identical
product-parameter rows, creates no parameter row, and fails exactly
when the t-run fails. -/
theorem paramsLoop_replay (ps : List (String × String)) :
    ∀ (t u : Db) (piId : Nat),
      u.productParameters = t.productParameters →
      (∀ nm, parMatches (paramsLoop t piId ps).1.parameters nm ≠ [] →
        parMatches u.parameters nm = parMatches (paramsLoop t piId ps).1.parameters nm) →
      (paramsLoop u piId ps).1.productParameters = (paramsLoop t piId ps).1.productParameters ∧
      (paramsLoop u piId ps).1.parameters = u.parameters ∧
      (paramsLoop u piId ps).2 = (paramsLoop t piId ps).2 := by
  induction ps with
  | nil =>
    intro t u piId hpp hstab
    exact ⟨hpp, rfl, rfl⟩
  | cons x rest ih =>
    intro t u piId hpp hstab
    obtain ⟨xn, xv⟩ := x
    rcases hm : parMatches t.parameters xn with _ | ⟨w, _ | ⟨w2, ws⟩⟩
    · -- the t-run creates the parameter row q
      have hfold := @paramsLoop_cons_create t piId xn xv rest hm
      rw [hfold] at hstab ⊢
      have hq : parMatches (t.parameters ++
          [(⟨freshId (t.parameters.map (·.id)), xn⟩ : Parameter)]) xn
          = [⟨freshId (t.parameters.map (·.id)), xn⟩] := by
        rw [parMatches_append, hm]
        simp [parMatches]
      have hfin : parMatches (paramsLoop
          { t with
            parameters := t.parameters ++ [⟨freshId (t.parameters.map (·.id)), xn⟩]
            productParameters := t.productParameters ++
              [⟨freshId (t.productParameters.map (·.id)), piId,
                freshId (t.parameters.map (·.id)), xv⟩] }
          piId rest).1.parameters xn
          = [⟨freshId (t.parameters.map (·.id)), xn⟩] := by
        rw [paramsLoop_parMatches rest _ piId xn (by
          show parMatches (t.parameters ++ _) xn ≠ []
          rw [hq]
          exact List.cons_ne_nil _ _)]
        exact hq
      have hu : parMatches u.parameters xn
          = [⟨freshId (t.parameters.map (·.id)), xn⟩] := by
        rw [hstab xn (by rw [hfin]; exact List.cons_ne_nil _ _), hfin]
      have hfoldu := @paramsLoop_cons_found u piId xn xv rest _ hu
      rw [hfoldu]
      have hppu : ({ u with productParameters := u.productParameters ++
          [⟨freshId (u.productParameters.map (·.id)), piId,
            Parameter.id ⟨freshId (t.parameters.map (·.id)), xn⟩, xv⟩] } : Db).productParameters
          = ({ t with
            parameters := t.parameters ++ [⟨freshId (t.parameters.map (·.id)), xn⟩]
            productParameters := t.productParameters ++
              [⟨freshId (t.productParameters.map (·.id)), piId,
                freshId (t.parameters.map (·.id)), xv⟩] } : Db).productParameters := by
        show u.productParameters ++ _ = t.productParameters ++ _
        rw [hpp]
      exact ih _ _ piId hppu hstab
    · -- the t-run finds the unique parameter row w
      have hfold := @paramsLoop_cons_found t piId xn xv rest w hm
      rw [hfold] at hstab ⊢
      have hfin : parMatches (paramsLoop
          { t with productParameters := t.productParameters ++
              [⟨freshId (t.productParameters.map (·.id)), piId, w.id, xv⟩] }
          piId rest).1.parameters xn = [w] := by
        rw [paramsLoop_parMatches rest _ piId xn (by
          show parMatches t.parameters xn ≠ []
          rw [hm]
          exact List.cons_ne_nil _ _)]
        show parMatches t.parameters xn = [w]
        exact hm
      have hu : parMatches u.parameters xn = [w] := by
        rw [hstab xn (by rw [hfin]; exact List.cons_ne_nil _ _), hfin]
      have hfoldu := @paramsLoop_cons_found u piId xn xv rest _ hu
      rw [hfoldu]
      have hppu : ({ u with productParameters := u.productParameters ++
          [⟨freshId (u.productParameters.map (·.id)), piId, w.id, xv⟩] } : Db).productParameters
          = ({ t with productParameters := t.productParameters ++
              [⟨freshId (t.productParameters.map (·.id)), piId, w.id, xv⟩] } : Db).productParameters := by
        show u.productParameters ++ _ = t.productParameters ++ _
        rw [hpp]
      exact ih _ _ piId hppu hstab
    · -- several rows match: the t-run dies with MultipleObjectsReturned
      have hfold := @paramsLoop_cons_multi t piId xn xv rest w w2 ws hm
      have hne : parMatches (paramsLoop t piId ((xn, xv) :: rest)).1.parameters xn ≠ [] := by
        rw [hfold]
        show parMatches t.parameters xn ≠ []
        rw [hm]
        exact List.cons_ne_nil _ _
      have hu : parMatches u.parameters xn = w :: w2 :: ws := by
        have h2 := hstab xn hne
        rw [hfold] at h2
        rw [h2]
        show parMatches t.parameters xn = _
        exact hm
      rw [hfold, paramsLoop_cons_multi hu]
      exact ⟨hpp, rfl, rfl⟩

/-- Replaying the goods loop in a state `u` that has the same product
infos and product parameters as `t`, and whose products and parameters
are the t-run's own final products and parameters, rebuilds the
identical product-info and product-parameter tables, creates no product
or parameter row, and fails exactly when the t-run fails.  This is the
heart of import idempotence: the second run's lookups all resolve to
the rows the first run created or found. -/
theorem goodsLoop_replay (gs : List Good) :
    ∀ (t u : Db) (sid : Nat),
      u.productInfos = t.productInfos →
      u.productParameters = t.productParameters →
      u.products = (goodsLoop t sid gs).1.products →
      u.parameters = (goodsLoop t sid gs).1.parameters →
      (goodsLoop u sid gs).1.productInfos = (goodsLoop t sid gs).1.productInfos ∧
      (goodsLoop u sid gs).1.productParameters = (goodsLoop t sid gs).1.productParameters ∧
      (goodsLoop u sid gs).1.products = u.products ∧
      (goodsLoop u sid gs).1.parameters = u.parameters ∧
      (goodsLoop u sid gs).2 = (goodsLoop t sid gs).2 := by
  induction gs with
  | nil =>
    intro t u sid hPI hPP _ _
    exact ⟨hPI, hPP, rfl, rfl, rfl⟩
  | cons g rest ih =>
    intro t u sid hPI hPP hyp3 hyp4
    rcases hm : prodMatches t.products g.name g.category with _ | ⟨p, _ | ⟨p2, pl⟩⟩
    · -- the t-run creates the product
      have hfoldt := @goodsLoop_cons_create t sid g rest hm
      rcases hpt : paramsLoop
          { t with
            products := t.products ++
              [⟨freshId (t.products.map (·.id)), g.name, g.category⟩]
            productInfos := t.productInfos ++
              [⟨freshId (t.productInfos.map (·.id)), g.model,
                freshId (t.products.map (·.id)), sid,
                g.quantity, g.price, g.price_rrc, g.id⟩] }
          (freshId (t.productInfos.map (·.id))) g.parameters with ⟨t3, et⟩
      have ht3prods : t3.products = t.products ++
          [(⟨freshId (t.products.map (·.id)), g.name, g.category⟩ : Product)] := by
        have h2 := paramsLoop_products g.parameters
          { t with
            products := t.products ++
              [⟨freshId (t.products.map (·.id)), g.name, g.category⟩]
            productInfos := t.productInfos ++
              [⟨freshId (t.productInfos.map (·.id)), g.model,
                freshId (t.products.map (·.id)), sid,
                g.quantity, g.price, g.price_rrc, g.id⟩] }
          (freshId (t.productInfos.map (·.id)))
        rw [hpt] at h2
        exact h2
      have ht3pis : t3.productInfos = t.productInfos ++
          [(⟨freshId (t.productInfos.map (·.id)), g.model,
            freshId (t.products.map (·.id)), sid,
            g.quantity, g.price, g.price_rrc, g.id⟩ : ProductInfo)] := by
        have h2 := paramsLoop_productInfos g.parameters
          { t with
            products := t.products ++
              [⟨freshId (t.products.map (·.id)), g.name, g.category⟩]
            productInfos := t.productInfos ++
              [⟨freshId (t.productInfos.map (·.id)), g.model,
                freshId (t.products.map (·.id)), sid,
                g.quantity, g.price, g.price_rrc, g.id⟩] }
          (freshId (t.productInfos.map (·.id)))
        rw [hpt] at h2
        exact h2
      have hm2 : prodMatches (t.products ++
          [(⟨freshId (t.products.map (·.id)), g.name, g.category⟩ : Product)])
          g.name g.category
          = [⟨freshId (t.products.map (·.id)), g.name, g.category⟩] := by
        rw [prodMatches_append, hm]
        simp [prodMatches]
      have hum : prodMatches u.products g.name g.category
          = [⟨freshId (t.products.map (·.id)), g.name, g.category⟩] := by
        rw [hyp3, hfoldt]
        cases et with
        | some e =>
          simp only [hpt]
          rw [ht3prods]
          exact hm2
        | none =>
          simp only [hpt]
          rw [goodsLoop_prodMatches rest t3 sid g.name g.category (by
            rw [ht3prods, hm2]
            exact List.cons_ne_nil _ _), ht3prods]
          exact hm2
      have hfoldu := @goodsLoop_cons_found u sid g rest _ hum
      rw [hPI] at hfoldu
      have hfoldu' : goodsLoop u sid (g :: rest)
          = (match paramsLoop
                { u with productInfos := t.productInfos ++
                    [⟨freshId (t.productInfos.map (·.id)), g.model,
                      freshId (t.products.map (·.id)), sid,
                      g.quantity, g.price, g.price_rrc, g.id⟩] }
                (freshId (t.productInfos.map (·.id))) g.parameters with
             | (db3, some e) => (db3, some e)
             | (db3, none) => goodsLoop db3 sid rest) := hfoldu
      have hstab2 : ∀ nm, parMatches (paramsLoop
          { t with
            products := t.products ++
              [⟨freshId (t.products.map (·.id)), g.name, g.category⟩]
            productInfos := t.productInfos ++
              [⟨freshId (t.productInfos.map (·.id)), g.model,
                freshId (t.products.map (·.id)), sid,
                g.quantity, g.price, g.price_rrc, g.id⟩] }
          (freshId (t.productInfos.map (·.id))) g.parameters).1.parameters nm ≠ [] →
          parMatches ({ u with productInfos := t.productInfos ++
              [⟨freshId (t.productInfos.map (·.id)), g.model,
                freshId (t.products.map (·.id)), sid,
                g.quantity, g.price, g.price_rrc, g.id⟩] } : Db).parameters nm
            = parMatches (paramsLoop
              { t with
                products := t.products ++
                  [⟨freshId (t.products.map (·.id)), g.name, g.category⟩]
                productInfos := t.productInfos ++
                  [⟨freshId (t.productInfos.map (·.id)), g.model,
                    freshId (t.products.map (·.id)), sid,
                    g.quantity, g.price, g.price_rrc, g.id⟩] }
              (freshId (t.productInfos.map (·.id))) g.parameters).1.parameters nm := by
        intro nm hne
        rw [hpt] at hne ⊢
        show parMatches u.parameters nm = parMatches t3.parameters nm
        cases et with
        | some e =>
          have h4 : u.parameters = t3.parameters := by
            rw [hyp4, hfoldt]
            simp only [hpt]
          rw [h4]
        | none =>
          have h4 : u.parameters = (goodsLoop t3 sid rest).1.parameters := by
            rw [hyp4, hfoldt]
            simp only [hpt]
          rw [h4, goodsLoop_parMatches rest t3 sid nm hne]
      have hinner := paramsLoop_replay g.parameters
        { t with
          products := t.products ++
            [⟨freshId (t.products.map (·.id)), g.name, g.category⟩]
          productInfos := t.productInfos ++
            [⟨freshId (t.productInfos.map (·.id)), g.model,
              freshId (t.products.map (·.id)), sid,
              g.quantity, g.price, g.price_rrc, g.id⟩] }
        { u with productInfos := t.productInfos ++
            [⟨freshId (t.productInfos.map (·.id)), g.model,
              freshId (t.products.map (·.id)), sid,
              g.quantity, g.price, g.price_rrc, g.id⟩] }
        (freshId (t.productInfos.map (·.id))) hPP hstab2
      rcases hpu : paramsLoop
          { u with productInfos := t.productInfos ++
              [⟨freshId (t.productInfos.map (·.id)), g.model,
                freshId (t.products.map (·.id)), sid,
                g.quantity, g.price, g.price_rrc, g.id⟩] }
          (freshId (t.productInfos.map (·.id))) g.parameters with ⟨u3, eu⟩
      rw [hpu, hpt] at hinner
      have c1 : u3.productParameters = t3.productParameters := hinner.1
      have c2 : u3.parameters = u.parameters := hinner.2.1
      have c3 : eu = et := hinner.2.2
      rw [c3] at hpu
      have hu3pi : u3.productInfos = t3.productInfos := by
        have a := paramsLoop_productInfos g.parameters
          { u with productInfos := t.productInfos ++
              [⟨freshId (t.productInfos.map (·.id)), g.model,
                freshId (t.products.map (·.id)), sid,
                g.quantity, g.price, g.price_rrc, g.id⟩] }
          (freshId (t.productInfos.map (·.id)))
        rw [hpu] at a
        have a' : u3.productInfos = t.productInfos ++
            [(⟨freshId (t.productInfos.map (·.id)), g.model,
              freshId (t.products.map (·.id)), sid,
              g.quantity, g.price, g.price_rrc, g.id⟩ : ProductInfo)] := a
        rw [a', ht3pis]
      have hu3prods : u3.products = u.products := by
        have a := paramsLoop_products g.parameters
          { u with productInfos := t.productInfos ++
              [⟨freshId (t.productInfos.map (·.id)), g.model,
                freshId (t.products.map (·.id)), sid,
                g.quantity, g.price, g.price_rrc, g.id⟩] }
          (freshId (t.productInfos.map (·.id)))
        rw [hpu] at a
        exact a
      cases et with
      | some e =>
        rw [hfoldt, hfoldu']
        simp only [hpt, hpu]
        exact ⟨hu3pi, c1, hu3prods, c2, trivial⟩
      | none =>
        have h4prods : u.products = (goodsLoop t3 sid rest).1.products := by
          rw [hyp3, hfoldt]
          simp only [hpt]
        have h4pars : u.parameters = (goodsLoop t3 sid rest).1.parameters := by
          rw [hyp4, hfoldt]
          simp only [hpt]
        obtain ⟨d1, d2, d3, d4, d5⟩ := ih t3 u3 sid hu3pi c1
          (by rw [hu3prods, h4prods]) (by rw [c2, h4pars])
        rw [hfoldt, hfoldu']
        simp only [hpt, hpu]
        exact ⟨d1, d2, d3.trans hu3prods, d4.trans c2, d5⟩
    · -- the t-run finds the unique existing product p
      have hfoldt := @goodsLoop_cons_found t sid g rest p hm
      rcases hpt : paramsLoop
          { t with productInfos := t.productInfos ++
              [⟨freshId (t.productInfos.map (·.id)), g.model, p.id, sid,
                g.quantity, g.price, g.price_rrc, g.id⟩] }
          (freshId (t.productInfos.map (·.id))) g.parameters with ⟨t3, et⟩
      have ht3prods : t3.products = t.products := by
        have h2 := paramsLoop_products g.parameters
          { t with productInfos := t.productInfos ++
              [⟨freshId (t.productInfos.map (·.id)), g.model, p.id, sid,
                g.quantity, g.price, g.price_rrc, g.id⟩] }
          (freshId (t.productInfos.map (·.id)))
        rw [hpt] at h2
        exact h2
      have ht3pis : t3.productInfos = t.productInfos ++
          [(⟨freshId (t.productInfos.map (·.id)), g.model, p.id, sid,
            g.quantity, g.price, g.price_rrc, g.id⟩ : ProductInfo)] := by
        have h2 := paramsLoop_productInfos g.parameters
          { t with productInfos := t.productInfos ++
              [⟨freshId (t.productInfos.map (·.id)), g.model, p.id, sid,
                g.quantity, g.price, g.price_rrc, g.id⟩] }
          (freshId (t.productInfos.map (·.id)))
        rw [hpt] at h2
        exact h2
      have hum : prodMatches u.products g.name g.category = [p] := by
        rw [hyp3, hfoldt]
        cases et with
        | some e =>
          simp only [hpt]
          rw [ht3prods]
          exact hm
        | none =>
          simp only [hpt]
          rw [goodsLoop_prodMatches rest t3 sid g.name g.category (by
            rw [ht3prods, hm]
            exact List.cons_ne_nil _ _), ht3prods]
          exact hm
      have hfoldu := @goodsLoop_cons_found u sid g rest _ hum
      rw [hPI] at hfoldu
      have hstab2 : ∀ nm, parMatches (paramsLoop
          { t with productInfos := t.productInfos ++
              [⟨freshId (t.productInfos.map (·.id)), g.model, p.id, sid,
                g.quantity, g.price, g.price_rrc, g.id⟩] }
          (freshId (t.productInfos.map (·.id))) g.parameters).1.parameters nm ≠ [] →
          parMatches ({ u with productInfos := t.productInfos ++
              [⟨freshId (t.productInfos.map (·.id)), g.model, p.id, sid,
                g.quantity, g.price, g.price_rrc, g.id⟩] } : Db).parameters nm
            = parMatches (paramsLoop
              { t with productInfos := t.productInfos ++
                  [⟨freshId (t.productInfos.map (·.id)), g.model, p.id, sid,
                    g.quantity, g.price, g.price_rrc, g.id⟩] }
              (freshId (t.productInfos.map (·.id))) g.parameters).1.parameters nm := by
        intro nm hne
        rw [hpt] at hne ⊢
        show parMatches u.parameters nm = parMatches t3.parameters nm
        cases et with
        | some e =>
          have h4 : u.parameters = t3.parameters := by
            rw [hyp4, hfoldt]
            simp only [hpt]
          rw [h4]
        | none =>
          have h4 : u.parameters = (goodsLoop t3 sid rest).1.parameters := by
            rw [hyp4, hfoldt]
            simp only [hpt]
          rw [h4, goodsLoop_parMatches rest t3 sid nm hne]
      have hinner := paramsLoop_replay g.parameters
        { t with productInfos := t.productInfos ++
            [⟨freshId (t.productInfos.map (·.id)), g.model, p.id, sid,
              g.quantity, g.price, g.price_rrc, g.id⟩] }
        { u with productInfos := t.productInfos ++
            [⟨freshId (t.productInfos.map (·.id)), g.model, p.id, sid,
              g.quantity, g.price, g.price_rrc, g.id⟩] }
        (freshId (t.productInfos.map (·.id))) hPP hstab2
      rcases hpu : paramsLoop
          { u with productInfos := t.productInfos ++
              [⟨freshId (t.productInfos.map (·.id)), g.model, p.id, sid,
                g.quantity, g.price, g.price_rrc, g.id⟩] }
          (freshId (t.productInfos.map (·.id))) g.parameters with ⟨u3, eu⟩
      rw [hpu, hpt] at hinner
      have c1 : u3.productParameters = t3.productParameters := hinner.1
      have c2 : u3.parameters = u.parameters := hinner.2.1
      have c3 : eu = et := hinner.2.2
      rw [c3] at hpu
      have hu3pi : u3.productInfos = t3.productInfos := by
        have a := paramsLoop_productInfos g.parameters
          { u with productInfos := t.productInfos ++
              [⟨freshId (t.productInfos.map (·.id)), g.model, p.id, sid,
                g.quantity, g.price, g.price_rrc, g.id⟩] }
          (freshId (t.productInfos.map (·.id)))
        rw [hpu] at a
        have a' : u3.productInfos = t.productInfos ++
            [(⟨freshId (t.productInfos.map (·.id)), g.model, p.id, sid,
              g.quantity, g.price, g.price_rrc, g.id⟩ : ProductInfo)] := a
        rw [a', ht3pis]
      have hu3prods : u3.products = u.products := by
        have a := paramsLoop_products g.parameters
          { u with productInfos := t.productInfos ++
              [⟨freshId (t.productInfos.map (·.id)), g.model, p.id, sid,
                g.quantity, g.price, g.price_rrc, g.id⟩] }
          (freshId (t.productInfos.map (·.id)))
        rw [hpu] at a
        exact a
      cases et with
      | some e =>
        rw [hfoldt, hfoldu]
        simp only [hpt, hpu]
        exact ⟨hu3pi, c1, hu3prods, c2, trivial⟩
      | none =>
        have h4prods : u.products = (goodsLoop t3 sid rest).1.products := by
          rw [hyp3, hfoldt]
          simp only [hpt]
        have h4pars : u.parameters = (goodsLoop t3 sid rest).1.parameters := by
          rw [hyp4, hfoldt]
          simp only [hpt]
        obtain ⟨d1, d2, d3, d4, d5⟩ := ih t3 u3 sid hu3pi c1
          (by rw [hu3prods, h4prods]) (by rw [c2, h4pars])
        rw [hfoldt, hfoldu]
        simp only [hpt, hpu]
        exact ⟨d1, d2, d3.trans hu3prods, d4.trans c2, d5⟩
    · -- several products match: the t-run dies immediately, and so does
      -- the u-run, whose products are the t-run's (unchanged) products
      have hfoldt := @goodsLoop_cons_multi t sid g rest p p2 pl hm
      have hum : prodMatches u.products g.name g.category = p :: p2 :: pl := by
        rw [hyp3, hfoldt]
        show prodMatches t.products g.name g.category = _
        exact hm
      have hfoldu := @goodsLoop_cons_multi u sid g rest p p2 pl hum
      rw [hfoldt, hfoldu]
      exact ⟨hPI, hPP, rfl, rfl, rfl⟩

theorem sellerStock_congr (db db' : Db) (sid : Nat)
    (hpi : db'.productInfos = db.productInfos)
    (hpp : db'.productParameters = db.productParameters) :
    sellerStock db' sid = sellerStock db sid := by
  unfold sellerStock piParams
  rw [hpi, hpp]

/-- One category iteration always raises (the `sellers` attribute does
not exist), and running it again from the state it left changes nothing
further: the category it may have created is found the second time. -/
theorem catStep_idem (db : Db) (sid sid2 : Nat) (c : CatEntry) :
    ∃ st e e2, catStep db sid c = (st, some e) ∧ catStep st sid2 c = (st, some e2) ∧
      st.sellers = db.sellers ∧ st.productInfos = db.productInfos ∧
      st.productParameters = db.productParameters := by
  rcases hcm : categoryMatches db.categories c.id c.name with _ | ⟨k, _ | ⟨k2, ks⟩⟩
  · by_cases hid : (db.categories.any fun k => decide (k.id = c.id)) = true
    · refine ⟨db, .integrityError, .integrityError, ?_, ?_, rfl, rfl, rfl⟩
      · unfold catStep
        rw [hcm]
        simp [hid]
      · unfold catStep
        rw [hcm]
        simp [hid]
    · refine ⟨{ db with categories := db.categories ++ [⟨c.id, c.name, []⟩] },
        .attributeError, .attributeError, ?_, ?_, rfl, rfl, rfl⟩
      · unfold catStep
        rw [hcm]
        simp only [hid, if_false, Bool.false_eq_true]
        rw [if_neg (show ¬ ("sellers" ∈ categoryAttrs) by decide)]
      · unfold catStep
        have hfound : categoryMatches ({ db with
            categories := db.categories ++ [⟨c.id, c.name, []⟩] } : Db).categories c.id c.name
            = [⟨c.id, c.name, []⟩] := by
          show categoryMatches (db.categories ++ [⟨c.id, c.name, []⟩]) c.id c.name = _
          rw [categoryMatches_append, hcm]
          simp [categoryMatches]
        simp only [hfound]
        rw [if_neg (show ¬ ("sellers" ∈ categoryAttrs) by decide)]
  · refine ⟨db, .attributeError, .attributeError, ?_, ?_, rfl, rfl, rfl⟩
    · unfold catStep
      simp only [hcm]
      rw [if_neg (show ¬ ("sellers" ∈ categoryAttrs) by decide)]
    · unfold catStep
      simp only [hcm]
      rw [if_neg (show ¬ ("sellers" ∈ categoryAttrs) by decide)]
  · refine ⟨db, .multipleObjectsReturned, .multipleObjectsReturned, ?_, ?_, rfl, rfl, rfl⟩
    · unfold catStep
      simp only [hcm]
    · unfold catStep
      simp only [hcm]

/-- A nonempty category list aborts on its first entry in both the
first and the second run, leaving the very same state. -/
theorem categoriesLoop_cons_idem (db : Db) (sid sid2 : Nat) (c : CatEntry) (cs : List CatEntry) :
    ∃ st e e2, categoriesLoop db sid (c :: cs) = (st, some e) ∧
      categoriesLoop st sid2 (c :: cs) = (st, some e2) ∧
      st.sellers = db.sellers ∧ st.productInfos = db.productInfos ∧
      st.productParameters = db.productParameters := by
  obtain ⟨st, e, e2, h1, h2, hs, hpi, hpp⟩ := catStep_idem db sid sid2 c
  exact ⟨st, e, e2, by simp only [categoriesLoop, h1], by simp only [categoriesLoop, h2],
    hs, hpi, hpp⟩

theorem goodsLoop_sellers (gs : List Good) (db : Db) (sid : Nat) :
    (goodsLoop db sid gs).1.sellers = db.sellers := by
  obtain ⟨prods, pis, qs, pps, hdec, _, _⟩ := goodsLoop_decomp gs db sid
  rw [hdec]

/-- The post-seller part of the import never touches the seller table. -/
theorem importRest_sellers (db : Db) (sel : Seller) (d : Doc) :
    (importRest db sel d).1.sellers = db.sellers := by
  unfold importRest
  rcases hd : d.categories with _ | ⟨c, cs⟩
  · simp only [categoriesLoop]
    rcases hg : goodsLoop (deleteSellerInfos db sel.id) sel.id d.goods with ⟨db4, eg⟩
    have h4 : db4.sellers = db.sellers := by
      have h2 := goodsLoop_sellers d.goods (deleteSellerInfos db sel.id) sel.id
      rw [hg] at h2
      exact h2
    cases eg <;> simp only [hg] <;> exact h4
  · obtain ⟨st, e, e2, h1, _, hs, _, _⟩ := categoriesLoop_cons_idem db sel.id sel.id c cs
    simp only [h1]
    exact hs

/-- Re-deleting the seller's stock after the goods loop removes exactly
the rows the loop created, restoring the product-info and
product-parameter tables the first delete produced.  Product-parameter
referential integrity of the original store is needed: a dangling
product-parameter row could otherwise be captured by a recycled
product-info id. -/
theorem deleteSellerInfos_replay (db : Db) (sid : Nat) (gs : List Good) (hwf : WfPP db) :
    (deleteSellerInfos (goodsLoop (deleteSellerInfos db sid) sid gs).1 sid).productInfos
      = (deleteSellerInfos db sid).productInfos ∧
    (deleteSellerInfos (goodsLoop (deleteSellerInfos db sid) sid gs).1 sid).productParameters
      = (deleteSellerInfos db sid).productParameters := by
  obtain ⟨prods, pis, qs, pps, hdec, hpis, hpps⟩ :=
    goodsLoop_decomp gs (deleteSellerInfos db sid) sid
  rw [hdec]
  have F1 : ∀ pi ∈ (deleteSellerInfos db sid).productInfos, ¬ pi.seller_id = sid := by
    intro pi hpi
    have h2 := (List.mem_filter.mp
      (show pi ∈ db.productInfos.filter (fun x => !decide (x.seller_id = sid)) from hpi)).2
    simpa using h2
  have E3 : ((deleteSellerInfos db sid).productInfos ++ pis).filter
      (fun pi => !decide (pi.seller_id = sid)) = (deleteSellerInfos db sid).productInfos := by
    rw [List.filter_append,
      List.filter_eq_self.mpr (fun pi h => by simpa using F1 pi h),
      List.filter_eq_nil_iff.mpr (fun pi h => by simpa using (hpis pi h).1),
      List.append_nil]
  have hdead2 : (((deleteSellerInfos db sid).productInfos ++ pis).filter
      (fun pi => decide (pi.seller_id = sid))).map (·.id) = pis.map (·.id) := by
    rw [List.filter_append,
      List.filter_eq_nil_iff.mpr (fun pi h => by simpa using F1 pi h),
      List.filter_eq_self.mpr (fun pi h => by simpa using (hpis pi h).1),
      List.nil_append]
  constructor
  · exact E3
  · show ((deleteSellerInfos db sid).productParameters ++ pps).filter
        (fun pp => !decide (pp.product_info_id ∈
          ((((deleteSellerInfos db sid).productInfos ++ pis).filter
            (fun pi => decide (pi.seller_id = sid))).map (·.id)))) = _
    have hkeep : ∀ pp ∈ (deleteSellerInfos db sid).productParameters,
        ¬ pp.product_info_id ∈ pis.map (·.id) := by
      intro pp hpp0 hbad
      have hsplit := List.mem_filter.mp
        (show pp ∈ db.productParameters.filter (fun x => !decide (x.product_info_id ∈
          ((db.productInfos.filter (fun pi => decide (pi.seller_id = sid))).map (·.id))))
          from hpp0)
      have hnotdead : ¬ pp.product_info_id ∈
          ((db.productInfos.filter (fun pi => decide (pi.seller_id = sid))).map (·.id)) := by
        simpa using hsplit.2
      obtain ⟨pi0, hpi0, hpi0id⟩ := hwf pp hsplit.1
      have hpi0nsid : ¬ pi0.seller_id = sid := by
        intro hcontra
        exact hnotdead (List.mem_map.mpr ⟨pi0,
          List.mem_filter.mpr ⟨hpi0, by simpa using hcontra⟩, hpi0id⟩)
      have hpi0in3 : pi0 ∈ (deleteSellerInfos db sid).productInfos :=
        show pi0 ∈ db.productInfos.filter (fun x => !decide (x.seller_id = sid)) from
          List.mem_filter.mpr ⟨hpi0, by simpa using hpi0nsid⟩
      obtain ⟨pi1, hpi1, hpi1id⟩ := List.mem_map.mp hbad
      exact (hpis pi1 hpi1).2 pi0 hpi0in3 (by rw [hpi0id, ← hpi1id])
    rw [hdead2, List.filter_append,
      List.filter_eq_self.mpr (fun pp h => by simpa using hkeep pp h),
      List.filter_eq_nil_iff.mpr (fun pp h => by
        obtain ⟨pi, hpi, hid⟩ := hpps pp h
        simp only [Bool.not_eq_true', decide_eq_false_iff_not, not_not]
        exact hid ▸ List.mem_map.mpr ⟨pi, hpi, rfl⟩),
      List.append_nil]

/-- Running the post-seller import steps twice with the same document
leaves every seller's stock as after one run. -/
theorem importRest_idem (db : Db) (sel : Seller) (d : Doc) (hwf : WfPP db) (sid0 : Nat) :
    sellerStock (importRest (importRest db sel d).1 sel d).1 sid0
      = sellerStock (importRest db sel d).1 sid0 := by
  rcases hd : d.categories with _ | ⟨c, cs⟩
  · rcases hg : goodsLoop (deleteSellerInfos db sel.id) sel.id d.goods with ⟨db4, eg⟩
    have hrun1 : (importRest db sel d).1 = db4 := by
      unfold importRest
      rw [hd]
      simp only [categoriesLoop, hg]
      cases eg <;> rfl
    rw [hrun1]
    have hdel := deleteSellerInfos_replay db sel.id d.goods hwf
    rw [hg] at hdel
    have hdel1 : (deleteSellerInfos db4 sel.id).productInfos
        = (deleteSellerInfos db sel.id).productInfos := hdel.1
    have hdel2 : (deleteSellerInfos db4 sel.id).productParameters
        = (deleteSellerInfos db sel.id).productParameters := hdel.2
    have hprods : (deleteSellerInfos db4 sel.id).products
        = (goodsLoop (deleteSellerInfos db sel.id) sel.id d.goods).1.products := by
      rw [hg]
      rfl
    have hpars : (deleteSellerInfos db4 sel.id).parameters
        = (goodsLoop (deleteSellerInfos db sel.id) sel.id d.goods).1.parameters := by
      rw [hg]
      rfl
    have hrep := goodsLoop_replay d.goods (deleteSellerInfos db sel.id)
      (deleteSellerInfos db4 sel.id) sel.id hdel1 hdel2 hprods hpars
    rcases hg2 : goodsLoop (deleteSellerInfos db4 sel.id) sel.id d.goods with ⟨db5, eg2⟩
    rw [hg2, hg] at hrep
    have e1 : db5.productInfos = db4.productInfos := hrep.1
    have e2 : db5.productParameters = db4.productParameters := hrep.2.1
    have hrun2 : (importRest db4 sel d).1 = db5 := by
      unfold importRest
      rw [hd]
      simp only [categoriesLoop, hg2]
      cases eg2 <;> rfl
    rw [hrun2]
    exact sellerStock_congr db4 db5 sid0 e1 e2
  · obtain ⟨st, e, e2, h1, h2, hs, hpi, hpp⟩ := categoriesLoop_cons_idem db sel.id sel.id c cs
    have hrun1 : (importRest db sel d).1 = st := by
      unfold importRest
      rw [hd]
      simp only [h1]
    rw [hrun1]
    have hrun2 : (importRest st sel d).1 = st := by
      unfold importRest
      rw [hd]
      simp only [h2]
    rw [hrun2]

/-- Import idempotence at the `importCatalog` level: the second run
resolves the same seller row and replays to the same stock. -/
theorem importCatalog_idem_stock (db : Db) (uid : Nat) (d : Doc) (hwf : WfPP db)
    (sid0 : Nat) :
    sellerStock (importCatalog (importCatalog db uid d).1 uid d).1 sid0
      = sellerStock (importCatalog db uid d).1 sid0 := by
  rcases hs : sellerMatches db.sellers d.seller uid with _ | ⟨s, _ | ⟨s2, sl⟩⟩
  · have hg1 := goc_seller_nil hs
    have hrun1 : importCatalog db uid d
        = importRest { db with sellers := db.sellers ++
            [⟨freshId (db.sellers.map (·.id)), some uid, d.seller, true, none⟩] }
          ⟨freshId (db.sellers.map (·.id)), some uid, d.seller, true, none⟩ d := by
      unfold importCatalog
      rw [hg1]
    have hfind2 : sellerMatches (importRest { db with sellers := db.sellers ++
          [⟨freshId (db.sellers.map (·.id)), some uid, d.seller, true, none⟩] }
          ⟨freshId (db.sellers.map (·.id)), some uid, d.seller, true, none⟩ d).1.sellers
          d.seller uid
        = [⟨freshId (db.sellers.map (·.id)), some uid, d.seller, true, none⟩] := by
      rw [importRest_sellers]
      show sellerMatches (db.sellers ++
        [⟨freshId (db.sellers.map (·.id)), some uid, d.seller, true, none⟩]) d.seller uid = _
      rw [sellerMatches_append, hs]
      simp [sellerMatches]
    have hg2 := goc_seller_single hfind2
    have hrun2 : importCatalog (importRest { db with sellers := db.sellers ++
          [⟨freshId (db.sellers.map (·.id)), some uid, d.seller, true, none⟩] }
          ⟨freshId (db.sellers.map (·.id)), some uid, d.seller, true, none⟩ d).1 uid d
        = importRest (importRest { db with sellers := db.sellers ++
          [⟨freshId (db.sellers.map (·.id)), some uid, d.seller, true, none⟩] }
          ⟨freshId (db.sellers.map (·.id)), some uid, d.seller, true, none⟩ d).1
          ⟨freshId (db.sellers.map (·.id)), some uid, d.seller, true, none⟩ d := by
      unfold importCatalog
      rw [hg2]
    rw [hrun1, hrun2]
    exact importRest_idem
      { db with sellers := db.sellers ++
          [⟨freshId (db.sellers.map (·.id)), some uid, d.seller, true, none⟩] }
      ⟨freshId (db.sellers.map (·.id)), some uid, d.seller, true, none⟩ d hwf sid0
  · have hg1 := goc_seller_single hs
    have hrun1 : importCatalog db uid d = importRest db s d := by
      unfold importCatalog
      rw [hg1]
    have hfind2 : sellerMatches (importRest db s d).1.sellers d.seller uid = [s] := by
      rw [importRest_sellers]
      exact hs
    have hg2 := goc_seller_single hfind2
    have hrun2 : importCatalog (importRest db s d).1 uid d
        = importRest (importRest db s d).1 s d := by
      unfold importCatalog
      rw [hg2]
    rw [hrun1, hrun2]
    exact importRest_idem db s d hwf sid0
  · have hg := goc_seller_multi hs
    have hrun1 : importCatalog db uid d = (db, .uncaught .multipleObjectsReturned) := by
      unfold importCatalog
      rw [hg]
    rw [hrun1]
    have hrun2 : importCatalog ((db, (Resp.uncaught .multipleObjectsReturned)) : Db × Resp).1
        uid d = (db, .uncaught .multipleObjectsReturned) := hrun1
    rw [hrun2]

/-- C2.  Importing the same catalog document twice in succession leaves
every seller's stock — the content of their `ProductInfo` rows
(product, display name, quantity, price, recommended price, article)
together with the attached parameters — exactly as after one import.
The second run resolves each `get_or_create` to the row the first run
created or found, deletes exactly the first run's rows and rebuilds
identical ones; on documents where the run aborts early (nonempty
categories raise `AttributeError`), the state reaches a fixpoint after
the first run.  Product-parameter referential integrity of the starting
store is assumed (a foreign key the store enforces). -/
theorem catalog_import_idempotent (db : Db) (u : ReqUser) (url : Option String)
    (validUrl : String → Bool) (doc : Doc) (hwf : WfPP db) (sid : Nat) :
    sellerStock (catalogPost (catalogPost db u url validUrl doc).1 u url validUrl doc).1 sid
      = sellerStock (catalogPost db u url validUrl doc).1 sid := by
  unfold catalogPost
  cases hA : u.isAuthenticated
  · simp
  · simp only [Bool.not_true, Bool.false_eq_true, if_false]
    by_cases ht : u.type ≠ "seller"
    · simp [ht]
    · simp only [ht, if_false]
      cases url with
      | none => simp
      | some url' =>
        by_cases hv : validUrl url' = true
        · simp only [hv, if_true]
          exact importCatalog_idem_stock db u.id doc hwf sid
        · simp [hv]

/-- Witness for C2: re-importing the goods-only Acme document over a
store already holding an older Acme listing with an attached parameter
yields the same stock both times. -/
theorem catalog_import_idempotent_witness :
    WfPP exImportDb ∧
    sellerStock (catalogPost (catalogPost exImportDb exSeller
        (some "http://acme.example/cat.yaml") (fun _ => true) exImportDoc).1 exSeller
        (some "http://acme.example/cat.yaml") (fun _ => true) exImportDoc).1 1
      = sellerStock (catalogPost exImportDb exSeller
        (some "http://acme.example/cat.yaml") (fun _ => true) exImportDoc).1 1 :=
  ⟨by unfold WfPP; decide,
    catalog_import_idempotent exImportDb exSeller (some "http://acme.example/cat.yaml")
      (fun _ => true) exImportDoc (by unfold WfPP; decide) 1⟩

end Backend
